import Mathlib

/-
Shallow embedding of the IoT-Threat-Simulator server-side simulation engine
(apps/server/src/simulation/engine.ts) in Lean 4.

Modelling conventions:
  - JavaScript numbers are modelled as rationals (ℚ); timestamps (Date.now())
    are an explicit `now : ℕ` input; `Math.random()` draws are consumed from an
    explicit list of rationals (`rand`), with 0 supplied once the list is
    exhausted, in exactly the order the source evaluates them.
  - `uuidv4()` produces an opaque fresh identifier with no behavioural role;
    event ids are modelled as the empty string.
  - The engine class body contains a second, duplicate definition of
    applyAttackEffects (engine.ts lines 449-562).  That duplicate is rejected
    by the TypeScript compiler (duplicate function implementation) and, taken
    on its own, dereferences identifiers that are not in scope (`defense`,
    `intensity`), so it cannot execute.  The first definition (lines 322-395)
    is the one the rest of the file and the specification describe, and it is
    the one embedded here.
-/

namespace IoTSim

inductive DeviceType where
  | cctv | smart_bulb | thermostat | door_lock | ip_camera
deriving Repr, DecidableEq

inductive SimEventType where
  | info | warning | alert | attack | defense | compromise | tampering | risk_change
deriving Repr, DecidableEq

inductive Severity where
  | low | medium | high | critical | info
deriving Repr, DecidableEq

structure DeviceMetrics where
  cpu : ℚ
  mem : ℚ
  netIn : ℚ
  netOut : ℚ
  msgRate : ℚ
  failedAuth : ℚ
  timestamp : ℕ
deriving Repr, DecidableEq

/-- One simulation event, as emitted by the engine (engine.ts first-definition
paths).  Every emitted event carries a severity; `deviceName` is present only
on system-level events. -/
structure SimulationEvent where
  id : String
  timestamp : ℕ
  deviceId : String
  deviceName : Option String
  type : SimEventType
  severity : Severity
  message : String
deriving Repr, DecidableEq

structure Device where
  id : String
  name : String
  dtype : DeviceType
  firmwareVersion : String
  weakPassword : Bool
  openPorts : List ℕ
  compromised : Bool
  integrityRisk : Bool
  metrics : DeviceMetrics
  lastUpdated : ℕ
  riskScore : ℚ
  lastEvent : Option SimulationEvent
deriving Repr, DecidableEq

structure AttackState where
  synFlood : ℚ
  dictionaryAttack : ℚ
  mqttFlood : ℚ
  firmwareTamper : Bool
deriving Repr, DecidableEq

structure DefenseState where
  rateLimiting : Bool
  accountLockout : Bool
  signatureCheck : Bool
deriving Repr, DecidableEq

structure SimulationState where
  running : Bool
  startedAt : ℕ
  lastUpdated : ℕ
  tickInterval : ℕ
  devices : List Device
  attack : AttackState
  defense : DefenseState
deriving Repr, DecidableEq

/-- Partial attack update, as accepted by setAttackState (object spread merge). -/
structure AttackPatch where
  synFlood : Option ℚ
  dictionaryAttack : Option ℚ
  mqttFlood : Option ℚ
  firmwareTamper : Option Bool
deriving Repr, DecidableEq

/-- Partial defense update, as accepted by setDefenseState. -/
structure DefensePatch where
  rateLimiting : Option Bool
  accountLockout : Option Bool
  signatureCheck : Option Bool
deriving Repr, DecidableEq

/-- METRIC_VARIANCE = 0.2 (engine.ts line 18). -/
def METRIC_VARIANCE : ℚ := 1/5

/-- Baseline metrics omit the timestamp, exactly as BASE_METRICS
(engine.ts lines 19-25). -/
structure BaseMetrics where
  cpu : ℚ
  mem : ℚ
  netIn : ℚ
  netOut : ℚ
  msgRate : ℚ
  failedAuth : ℚ
deriving Repr, DecidableEq

/-- BASE_METRICS table (engine.ts lines 19-25). -/
def BASE_METRICS : DeviceType → BaseMetrics
  | .cctv => ⟨15, 30, 200, 500, 10, 0⟩
  | .smart_bulb => ⟨5, 10, 10, 5, 2, 0⟩
  | .thermostat => ⟨10, 15, 5, 5, 1, 0⟩
  | .door_lock => ⟨8, 12, 3, 3, 1/2, 0⟩
  | .ip_camera => ⟨20, 40, 300, 800, 15, 0⟩

/-- DEVICE_TYPES array (engine.ts line 27). -/
def DEVICE_TYPES : List DeviceType :=
  [.cctv, .smart_bulb, .thermostat, .door_lock, .ip_camera]

/-- DEFAULT_PORTS table (engine.ts lines 28-34). -/
def DEFAULT_PORTS : DeviceType → List ℕ
  | .cctv => [80, 443, 554, 8000]
  | .smart_bulb => [80, 443, 8080]
  | .thermostat => [80, 443, 3000]
  | .door_lock => [80, 443, 3001]
  | .ip_camera => [80, 443, 554, 8000, 9000]

/-- One Math.random() draw: consume the head of the draw list, defaulting to 0
once the supplied draws are exhausted. -/
def rand : List ℚ → ℚ × List ℚ
  | [] => (0, [])
  | r :: rs => (r, rs)

/-- The k-th pending draw of a draw list (0 when exhausted). -/
def draw (rs : List ℚ) (k : ℕ) : ℚ := (rs.drop k).headD 0

/-- variance helper inside calculateDeviceMetrics (engine.ts lines 215-216):
value * (1 + (Math.random()*2 - 1) * METRIC_VARIANCE), with the draw passed
explicitly. -/
def variance (r : ℚ) (v : ℚ) : ℚ := v * (1 + (r * 2 - 1) * METRIC_VARIANCE)

/-- calculateDeviceMetrics (engine.ts lines 210-233).  Draws are consumed in
source order: cpu, mem, netIn, netOut, then msgRate (the msgRate draw happens
only when base.msgRate is truthy, i.e. nonzero).  failedAuth is taken from the
baseline (`base.failedAuth || 0`). -/
def calculateDeviceMetrics (base : BaseMetrics) (attackFactor : ℚ)
    (isTampered : Bool) (now : ℕ) (rs : List ℚ) : DeviceMetrics × List ℚ :=
  let attackMultiplier : ℚ := 1 + (attackFactor - 1) * (1/2)
  let tamperMultiplier : ℚ := if isTampered then 13/10 else 1
  let m := attackMultiplier * tamperMultiplier
  let (r1, rs) := rand rs
  let (r2, rs) := rand rs
  let (r3, rs) := rand rs
  let (r4, rs) := rand rs
  let (msgRateVal, rs) :=
    if base.msgRate ≠ 0 then
      let (r5, rs) := rand rs
      (variance r5 (base.msgRate * m), rs)
    else (0, rs)
  (⟨variance r1 (min 100 (base.cpu * m)),
    variance r2 (min 100 (base.mem * m)),
    variance r3 (base.netIn * m),
    variance r4 (base.netOut * m),
    msgRateVal,
    base.failedAuth,
    now⟩, rs)

/-- Per-category base risk table inside calculateDeviceRisk
(engine.ts lines 284-290). -/
def baseRisks : DeviceType → ℚ
  | .cctv => 40
  | .ip_camera => 45
  | .door_lock => 60
  | .smart_bulb => 25
  | .thermostat => 30

/-- calculateDeviceRisk (engine.ts lines 279-315): sequential additive risk
adjustments, capped into [0, 100]. -/
def calculateDeviceRisk (d : Device) : ℚ :=
  let m := d.metrics
  let r : ℚ := baseRisks d.dtype
  let r := r + (if d.weakPassword then 20 else 0)
  let r := r + (if 80 < m.cpu then 15 else if 50 < m.cpu then 7 else 0)
  let r := r + (if 500 < m.netIn ∨ 500 < m.netOut then 15
                else if 200 < m.netIn ∨ 200 < m.netOut then 7 else 0)
  let r := r + (if 5 < m.failedAuth then 20 else if 0 < m.failedAuth then 5 else 0)
  let r := r + (if d.compromised then 30 else 0)
  let r := r + (if d.integrityRisk then 25 else 0)
  min 100 (max 0 r)

/-- Display name prefix used by generateDevices (engine.ts line 79):
first character upper-cased, first underscore replaced by a space. -/
def typeDisplayName : DeviceType → String
  | .cctv => "Cctv"
  | .smart_bulb => "Smart bulb"
  | .thermostat => "Thermostat"
  | .door_lock => "Door lock"
  | .ip_camera => "Ip camera"

/-- The lower-case category key, as stored in the type field. -/
def deviceTypeKey : DeviceType → String
  | .cctv => "cctv"
  | .smart_bulb => "smart_bulb"
  | .thermostat => "thermostat"
  | .door_lock => "door_lock"
  | .ip_camera => "ip_camera"

/-- One iteration of the generateDevices loop body (engine.ts lines 73-96).
Draw order: device type, hasBattery (computed but never used), weakPassword,
then the five jitter draws of calculateDeviceMetrics (attackFactor 0,
isTampered false). -/
def generateDevice (i : ℕ) (now : ℕ) (rs : List ℚ) : Device × List ℚ :=
  let r1 := (rand rs).1
  let rs1 := (rand rs).2
  let ty := (DEVICE_TYPES.drop (Int.toNat ⌊r1 * 5⌋)).headD .cctv
  let rs2 := (rand rs1).2
  let r3 := (rand rs2).1
  let rs3 := (rand rs2).2
  let cm := calculateDeviceMetrics (BASE_METRICS ty) 0 false now rs3
  let d : Device :=
    { id := "device-" ++ toString (i + 1)
      name := typeDisplayName ty ++ " " ++ toString (i + 1)
      dtype := ty
      firmwareVersion := "1.0.0"
      weakPassword := decide ((7 : ℚ)/10 < r3)
      openPorts := DEFAULT_PORTS ty
      compromised := false
      integrityRisk := false
      metrics := cm.1
      lastUpdated := now
      riskScore := 0
      lastEvent := none }
  ({ d with riskScore := calculateDeviceRisk d }, cm.2)

/-- generateDevices loop (engine.ts lines 69-99), devices indexed from 0. -/
def generateDevicesAux (now : ℕ) : ℕ → ℕ → List ℚ → List Device × List ℚ
  | _, 0, rs => ([], rs)
  | i, n + 1, rs =>
    let (d, rs) := generateDevice i now rs
    let (ds, rs') := generateDevicesAux now (i + 1) n rs
    (d :: ds, rs')

def generateDevices (count : ℕ) (now : ℕ) (rs : List ℚ) : List Device × List ℚ :=
  generateDevicesAux now 0 count rs

/-- createInitialState (engine.ts lines 45-67): not running, 5 fresh devices,
zeroed attack knobs, all defenses off, tickInterval 500. -/
def createInitialState (now : ℕ) (rs : List ℚ) : SimulationState × List ℚ :=
  let (ds, rs') := generateDevices 5 now rs
  ({ running := false
     startedAt := now
     lastUpdated := now
     tickInterval := 500
     devices := ds
     attack := ⟨0, 0, 0, false⟩
     defense := ⟨false, false, false⟩ }, rs')

/-- A system-level info event (deviceId "system", deviceName "System"). -/
def systemInfoEvent (now : ℕ) (msg : String) : SimulationEvent :=
  { id := "", timestamp := now, deviceId := "system", deviceName := some "System",
    type := .info, severity := .info, message := msg }

/-- The SYN-flood detection event, with the three-tier severity ladder of
engine.ts line 337. -/
def synEvent (a : AttackState) (d : Device) (now : ℕ) : SimulationEvent :=
  { id := "", timestamp := now, deviceId := d.id, deviceName := none,
    type := .attack,
    severity := if 70 < a.synFlood then .high
                else if 30 < a.synFlood then .medium else .low,
    message := "SYN flood attack detected on " ++ d.name ++ " (" ++ d.id ++ ")" }

/-- SYN-flood block of applyAttackEffects (engine.ts lines 326-342).
Three draws when active: netIn jitter, cpu jitter, event-probability check. -/
def synFloodStep (a : AttackState) (d : Device) (now : ℕ) (rs : List ℚ) :
    Device × List SimulationEvent × List ℚ :=
  if 0 < a.synFlood then
    let s := a.synFlood / 100
    let (r1, rs) := rand rs
    let (r2, rs) := rand rs
    let d := { d with metrics := { d.metrics with
                 netIn := d.metrics.netIn + 500 * s * (1 + r1),
                 cpu := d.metrics.cpu + 10 * s * (1 + r2) } }
    let (r3, rs) := rand rs
    if r3 < 1/10 * s then (d, [synEvent a d now], rs)
    else (d, [], rs)
  else (d, [], rs)

/-- The critical compromise event of engine.ts lines 352-359. -/
def compromiseEvent (d : Device) (now : ℕ) : SimulationEvent :=
  { id := "", timestamp := now, deviceId := d.id, deviceName := none,
    type := .compromise, severity := .critical,
    message := "Device " ++ d.name ++ " (" ++ d.id ++ ") has been compromised!" }

/-- Dictionary-attack block of applyAttackEffects (engine.ts lines 344-361).
The compromise draw is taken only when the device has a weak password
(short-circuit of the JS conjunction). -/
def dictionaryStep (a : AttackState) (d : Device) (now : ℕ) (rs : List ℚ) :
    Device × List SimulationEvent × List ℚ :=
  if 0 < a.dictionaryAttack ∧ d.compromised = false then
    let s := a.dictionaryAttack / 100
    let d := { d with metrics := { d.metrics with
                 failedAuth := d.metrics.failedAuth + ((⌊5 * s⌋ : ℤ) : ℚ) } }
    if d.weakPassword then
      let (r, rs) := rand rs
      if r < 5/100 * s then
        ({ d with compromised := true }, [compromiseEvent d now], rs)
      else (d, [], rs)
    else (d, [], rs)
  else (d, [], rs)

/-- The MQTT-flood detection event (engine.ts lines 370-377). -/
def mqttEvent (a : AttackState) (d : Device) (now : ℕ) : SimulationEvent :=
  { id := "", timestamp := now, deviceId := d.id, deviceName := none,
    type := .attack,
    severity := if 70 < a.mqttFlood then .high else .medium,
    message := "MQTT flood attack detected on " ++ d.name ++ " (" ++ d.id ++ ")" }

/-- MQTT-flood block of applyAttackEffects (engine.ts lines 363-379). -/
def mqttStep (a : AttackState) (d : Device) (now : ℕ) (rs : List ℚ) :
    Device × List SimulationEvent × List ℚ :=
  if 0 < a.mqttFlood then
    let s := a.mqttFlood / 100
    let (r1, rs) := rand rs
    let (r2, rs) := rand rs
    let d := { d with metrics := { d.metrics with
                 msgRate := d.metrics.msgRate + 50 * s * (1 + r1),
                 cpu := d.metrics.cpu + 5 * s * (1 + r2) } }
    let (r3, rs) := rand rs
    if r3 < 1/10 * s then (d, [mqttEvent a d now], rs)
    else (d, [], rs)
  else (d, [], rs)

/-- The critical tampering event (engine.ts lines 385-392). -/
def tamperEvent (d : Device) (now : ℕ) : SimulationEvent :=
  { id := "", timestamp := now, deviceId := d.id, deviceName := none,
    type := .tampering, severity := .critical,
    message := "Firmware tampering detected on " ++ d.name ++ " (" ++ d.id ++ ")" }

/-- Firmware-tamper block of applyAttackEffects (engine.ts lines 381-394). -/
def tamperStep (a : AttackState) (d : Device) (now : ℕ) (rs : List ℚ) :
    Device × List SimulationEvent × List ℚ :=
  if a.firmwareTamper ∧ d.integrityRisk = false then
    let (r, rs) := rand rs
    if r < 5/100 then
      ({ d with integrityRisk := true }, [tamperEvent d now], rs)
    else (d, [], rs)
  else (d, [], rs)

/-- applyAttackEffects, first definition (engine.ts lines 322-395): SYN flood,
then dictionary attack, then MQTT flood, then firmware tamper. -/
def applyAttackEffects (a : AttackState) (d : Device) (now : ℕ) (rs : List ℚ) :
    Device × List SimulationEvent × List ℚ :=
  let (d1, e1, rs) := synFloodStep a d now rs
  let (d2, e2, rs) := dictionaryStep a d1 now rs
  let (d3, e3, rs) := mqttStep a d2 now rs
  let (d4, e4, rs') := tamperStep a d3 now rs
  (d4, e1 ++ e2 ++ e3 ++ e4, rs')

/-- applyDefenseMitigations (engine.ts lines 397-426): rate limiting, account
lockout, signature check, in that order.  Consumes no random draws. -/
def applyDefenseMitigations (df : DefenseState) (d : Device) (now : ℕ) :
    Device × List SimulationEvent :=
  let d := if df.rateLimiting then
      let m := d.metrics
      let m := { m with netIn := min m.netIn 1000 }
      let m := if m.msgRate ≠ 0 then { m with msgRate := min m.msgRate 100 } else m
      { d with metrics := m }
    else d
  let d := if df.accountLockout ∧ 5 < d.metrics.failedAuth then
      { d with metrics := { d.metrics with failedAuth := 5 } }
    else d
  if df.signatureCheck ∧ d.integrityRisk then
    ({ d with integrityRisk := false },
     [{ id := "", timestamp := now, deviceId := d.id, deviceName := none,
        type := .defense, severity := .info,
        message := "Firmware integrity restored on " ++ d.name ++ " (" ++ d.id ++ ")" }])
  else (d, [])

/-- Per-device body of the tick loop (engine.ts lines 432-441): attack
effects, then defense mitigations, then stamp lastUpdated. -/
def tickDevices (a : AttackState) (df : DefenseState) (now : ℕ) :
    List Device → List ℚ → List Device × List SimulationEvent × List ℚ
  | [], rs => ([], [], rs)
  | d :: ds, rs =>
    let (d1, e1, rs) := applyAttackEffects a d now rs
    let (d2, e2) := applyDefenseMitigations df d1 now
    let (ds', es, rs') := tickDevices a df now ds rs
    ({ d2 with lastUpdated := now } :: ds', e1 ++ e2 ++ es, rs')

/-- tick (engine.ts lines 428-446). -/
def tick (s : SimulationState) (now : ℕ) (rs : List ℚ) :
    SimulationState × List SimulationEvent × List ℚ :=
  let (ds, es, rs') := tickDevices s.attack s.defense now s.devices rs
  ({ s with devices := ds, lastUpdated := now }, es, rs')

/-- Per-device body of updateDeviceMetrics (engine.ts lines 238-251):
resynthesize the metrics snapshot from the category baseline, then the
probabilistic failedAuth decrement (whose draw is taken only when the fresh
snapshot's failedAuth is positive, by JS short-circuiting). -/
def refreshDevice (now : ℕ) (d : Device) (rs : List ℚ) : Device × List ℚ :=
  let base := BASE_METRICS d.dtype
  let attackFactor : ℚ := if d.compromised then 3/2 else 1
  let (m, rs) := calculateDeviceMetrics base attackFactor d.integrityRisk now rs
  let d := { d with metrics := m }
  let (d, rs) :=
    if (0 : ℚ) < d.metrics.failedAuth then
      let (r, rs) := rand rs
      if (7 : ℚ)/10 < r then
        ({ d with metrics := { d.metrics with failedAuth := d.metrics.failedAuth - 1 } }, rs)
      else (d, rs)
    else (d, rs)
  ({ d with lastUpdated := now }, rs)

def refreshDevices (now : ℕ) : List Device → List ℚ → List Device × List ℚ
  | [], rs => ([], rs)
  | d :: ds, rs =>
    let (d', rs) := refreshDevice now d rs
    let (ds', rs') := refreshDevices now ds rs
    (d' :: ds', rs')

/-- updateDeviceMetrics (engine.ts lines 235-255). -/
def updateDeviceMetrics (s : SimulationState) (now : ℕ) (rs : List ℚ) :
    SimulationState × List ℚ :=
  let (ds, rs') := refreshDevices now s.devices rs
  ({ s with devices := ds, lastUpdated := now }, rs')

/-- Per-device body of updateRiskScores (engine.ts lines 258-274). -/
def updateRiskDevice (now : ℕ) (d : Device) : Device × List SimulationEvent :=
  let oldRisk := d.riskScore
  let d := { d with riskScore := calculateDeviceRisk d }
  if 15 < |d.riskScore - oldRisk| then
    (d, [{ id := "", timestamp := now, deviceId := d.id, deviceName := none,
           type := .risk_change, severity := .info,
           message := "Risk level " ++ (if oldRisk < d.riskScore then "increased" else "decreased")
             ++ " for " ++ d.name ++ " (" ++ d.id ++ "): "
             ++ toString (round d.riskScore) ++ "/100" }])
  else (d, [])

/-- updateRiskScores (engine.ts lines 257-277).  Does not stamp lastUpdated. -/
def updateRiskScores (s : SimulationState) (now : ℕ) :
    SimulationState × List SimulationEvent :=
  let outs := s.devices.map (updateRiskDevice now)
  ({ s with devices := outs.map Prod.fst }, (outs.map Prod.snd).flatten)

/-- Object-spread merge of a partial attack update (engine.ts line 159). -/
def mergeAttack (a : AttackState) (p : AttackPatch) : AttackState :=
  { synFlood := p.synFlood.getD a.synFlood
    dictionaryAttack := p.dictionaryAttack.getD a.dictionaryAttack
    mqttFlood := p.mqttFlood.getD a.mqttFlood
    firmwareTamper := p.firmwareTamper.getD a.firmwareTamper }

/-- setAttackState (engine.ts lines 158-178). -/
def setAttackState (p : AttackPatch) (s : SimulationState) (now : ℕ) :
    SimulationState × List SimulationEvent :=
  let s := { s with attack := mergeAttack s.attack p }
  match p.firmwareTamper with
  | none => (s, [])
  | some b =>
    ({ s with devices := s.devices.map (fun d => { d with integrityRisk := b }) },
     [{ id := "", timestamp := now, deviceId := "system", deviceName := some "System",
        type := if b then .tampering else .info,
        severity := if b then .critical else .info,
        message := if b then "Firmware tampering detected across all devices!"
                   else "Firmware integrity restored" }])

/-- Object-spread merge of a partial defense update (engine.ts line 181). -/
def mergeDefense (df : DefenseState) (p : DefensePatch) : DefenseState :=
  { rateLimiting := p.rateLimiting.getD df.rateLimiting
    accountLockout := p.accountLockout.getD df.accountLockout
    signatureCheck := p.signatureCheck.getD df.signatureCheck }

/-- setDefenseState (engine.ts lines 180-196). -/
def setDefenseState (p : DefensePatch) (s : SimulationState) (now : ℕ) :
    SimulationState × List SimulationEvent :=
  let s := { s with defense := mergeDefense s.defense p }
  match p.signatureCheck with
  | none => (s, [])
  | some b =>
    (s, [systemInfoEvent now
          (if b then "Signature verification enabled" else "Signature verification disabled")])

/-- The three interval kinds registered by start() (engine.ts lines 108-112). -/
inductive TimerKind where
  | tick | metric | risk
deriving Repr, DecidableEq

/-- Engine object state: the simulation state, the stored tick-interval handle
(this.tickInterval), and the ambient set of live interval timers with a fresh
handle counter.  start() registers three intervals but stores only the tick
handle; the metric and risk interval handles are discarded (engine.ts
lines 108-112), which the `timers` list records faithfully. -/
structure Engine where
  state : SimulationState
  tickHandle : Option ℕ
  timers : List (ℕ × TimerKind)
  nextTimer : ℕ
deriving Repr, DecidableEq

def initialEngine (now : ℕ) (rs : List ℚ) : Engine :=
  { state := (createInitialState now rs).1
    tickHandle := none
    timers := []
    nextTimer := 0 }

/-- start (engine.ts lines 101-123): no-op when running; otherwise set the
running flag, stamp startedAt, register the three intervals (only the tick
handle is stored), and emit the start event. -/
def Engine.start (e : Engine) (now : ℕ) : Engine × List SimulationEvent :=
  if e.state.running then (e, [])
  else
    let n := e.nextTimer
    ({ state := { e.state with running := true, startedAt := now }
       tickHandle := some n
       timers := e.timers ++ [(n, .tick), (n + 1, .metric), (n + 2, .risk)]
       nextTimer := n + 3 },
     [systemInfoEvent now "Simulation started"])

/-- pause (engine.ts lines 125-141): no-op when no tick handle is stored;
otherwise clearInterval the stored handle only, null it, clear the running
flag and emit the pause event.  The metric and risk intervals have no stored
handle and are not cleared. -/
def Engine.pause (e : Engine) (now : ℕ) : Engine × List SimulationEvent :=
  match e.tickHandle with
  | none => (e, [])
  | some h =>
    ({ e with
        state := { e.state with running := false }
        tickHandle := none
        timers := e.timers.filter (fun t => t.1 ≠ h) },
     [systemInfoEvent now "Simulation paused"])

/-- reset (engine.ts lines 143-156): pause, replace the whole state with a
freshly constructed one, emit the reset event. -/
def Engine.reset (e : Engine) (now : ℕ) (rs : List ℚ) : Engine × List SimulationEvent :=
  let (e1, evs1) := e.pause now
  ({ e1 with state := (createInitialState now rs).1 },
   evs1 ++ [systemInfoEvent now "Simulation reset to initial state"])

def Engine.setAttack (e : Engine) (p : AttackPatch) (now : ℕ) :
    Engine × List SimulationEvent :=
  let (s, evs) := setAttackState p e.state now
  ({ e with state := s }, evs)

def Engine.setDefense (e : Engine) (p : DefensePatch) (now : ℕ) :
    Engine × List SimulationEvent :=
  let (s, evs) := setDefenseState p e.state now
  ({ e with state := s }, evs)

/-- One firing of the tick interval callback. -/
def Engine.tickStep (e : Engine) (now : ℕ) (rs : List ℚ) :
    Engine × List SimulationEvent :=
  let (s, evs, _) := tick e.state now rs
  ({ e with state := s }, evs)

/-- One firing of the metric-refresh interval callback. -/
def Engine.metricStep (e : Engine) (now : ℕ) (rs : List ℚ) : Engine :=
  { e with state := (updateDeviceMetrics e.state now rs).1 }

/-- One firing of the risk-refresh interval callback. -/
def Engine.riskStep (e : Engine) (now : ℕ) : Engine × List SimulationEvent :=
  let (s, evs) := updateRiskScores e.state now
  ({ e with state := s }, evs)

/-- A timer of the given kind is currently scheduled. -/
def Engine.hasTimer (e : Engine) (k : TimerKind) : Prop :=
  k ∈ e.timers.map Prod.snd

instance (e : Engine) (k : TimerKind) : Decidable (e.hasTimer k) := by
  unfold Engine.hasTimer; infer_instance

/-- All draws a Math.random() oracle can produce lie in [0, 1). -/
def ValidDraws (rs : List ℚ) : Prop := ∀ r ∈ rs, 0 ≤ r ∧ r < 1

/-- Attack intensities accepted by the validated transport endpoints
(apps/server/src/index.ts) lie in [0, 100]. -/
def ValidPatch (p : AttackPatch) : Prop :=
  (∀ q ∈ p.synFlood, 0 ≤ q ∧ q ≤ 100) ∧
  (∀ q ∈ p.dictionaryAttack, 0 ≤ q ∧ q ≤ 100) ∧
  (∀ q ∈ p.mqttFlood, 0 ≤ q ∧ q ≤ 100)

/-- Engine states reachable from construction by control operations and by
firings of the scheduled interval callbacks.  A periodic callback can fire
exactly when a live timer of its kind is scheduled. -/
inductive Reach : Engine → Prop where
  | init (now : ℕ) (rs : List ℚ) (h : ValidDraws rs) : Reach (initialEngine now rs)
  | start (e : Engine) (now : ℕ) : Reach e → Reach (e.start now).1
  | pause (e : Engine) (now : ℕ) : Reach e → Reach (e.pause now).1
  | reset (e : Engine) (now : ℕ) (rs : List ℚ) (h : ValidDraws rs) :
      Reach e → Reach (e.reset now rs).1
  | setAttack (e : Engine) (p : AttackPatch) (now : ℕ) (h : ValidPatch p) :
      Reach e → Reach (e.setAttack p now).1
  | setDefense (e : Engine) (p : DefensePatch) (now : ℕ) :
      Reach e → Reach (e.setDefense p now).1
  | tickStep (e : Engine) (now : ℕ) (rs : List ℚ) (hv : ValidDraws rs)
      (ht : e.hasTimer .tick) : Reach e → Reach (e.tickStep now rs).1
  | metricStep (e : Engine) (now : ℕ) (rs : List ℚ) (hv : ValidDraws rs)
      (ht : e.hasTimer .metric) : Reach e → Reach (e.metricStep now rs)
  | riskStep (e : Engine) (now : ℕ) (ht : e.hasTimer .risk) :
      Reach e → Reach (e.riskStep now).1

/-
Listener broadcast (engine.ts lines 202-208).  A listener callback either
returns normally (none) or throws an exception carrying a message (some).
emitEvent is `this.eventListeners.forEach(listener => listener(event))`:
listeners run synchronously in array order; a thrown exception propagates out
of forEach, so iteration stops at the throwing listener.  The model returns
the indices of the listeners that were invoked, in invocation order, together
with the propagated exception if any.
-/

def Listener : Type := SimulationEvent → Option String

def runListenersAux (ev : SimulationEvent) :
    List Listener → ℕ → List ℕ × Option String
  | [], _ => ([], none)
  | l :: ls, i =>
    match l ev with
    | some err => ([i], some err)
    | none =>
      let (is, r) := runListenersAux ev ls (i + 1)
      (i :: is, r)

/-- emitEvent (engine.ts lines 206-208): a bare forEach over the listener
array, with no per-listener exception handling. -/
def emitEvent (ls : List Listener) (ev : SimulationEvent) : List ℕ × Option String :=
  runListenersAux ev ls 0

/-- addEventListener (engine.ts lines 202-204): push onto the array, so
registration order is list order. -/
def addEventListener (ls : List Listener) (l : Listener) : List Listener :=
  ls ++ [l]

/-
getState (engine.ts lines 198-200) returns JSON.parse(JSON.stringify(state)).
The JSON value space is modelled by `Json`; encoding follows the insertion
order of the source object literals, and decoding inverts it.  Snapshot
identity is modelled by a store of heap cells: each getState call allocates a
fresh cell holding the decoded copy, so distinct calls yield distinct
references, and writing through one reference cannot change another cell.
-/

inductive Json where
  | null
  | jbool (b : Bool)
  | num (q : ℚ)
  | str (s : String)
  | arr (xs : List Json)
  | obj (fs : List (String × Json))

def eventTypeKey : SimEventType → String
  | .info => "info"
  | .warning => "warning"
  | .alert => "alert"
  | .attack => "attack"
  | .defense => "defense"
  | .compromise => "compromise"
  | .tampering => "tampering"
  | .risk_change => "risk_change"

def decEventType : String → Option SimEventType
  | "info" => some .info
  | "warning" => some .warning
  | "alert" => some .alert
  | "attack" => some .attack
  | "defense" => some .defense
  | "compromise" => some .compromise
  | "tampering" => some .tampering
  | "risk_change" => some .risk_change
  | _ => none

def severityKey : Severity → String
  | .low => "low"
  | .medium => "medium"
  | .high => "high"
  | .critical => "critical"
  | .info => "info"

def decSeverity : String → Option Severity
  | "low" => some .low
  | "medium" => some .medium
  | "high" => some .high
  | "critical" => some .critical
  | "info" => some .info
  | _ => none

def decDeviceType : String → Option DeviceType
  | "cctv" => some .cctv
  | "smart_bulb" => some .smart_bulb
  | "thermostat" => some .thermostat
  | "door_lock" => some .door_lock
  | "ip_camera" => some .ip_camera
  | _ => none

/-- Field lookup in a JSON object (first match wins). -/
def getField : List (String × Json) → String → Option Json
  | [], _ => none
  | (k, v) :: fs, key => if k = key then some v else getField fs key

/-- Decode a JSON number back into a natural (used for timestamps, ports). -/
def decNat : Json → Option ℕ
  | .num q => if q.den = 1 ∧ 0 ≤ q.num then some q.num.toNat else none
  | _ => none

def decQ : Json → Option ℚ
  | .num q => some q
  | _ => none

def decStr : Json → Option String
  | .str s => some s
  | _ => none

def decBool : Json → Option Bool
  | .jbool b => some b
  | _ => none

def decListNat : List Json → Option (List ℕ)
  | [] => some []
  | j :: js =>
    match decNat j, decListNat js with
    | some n, some ns => some (n :: ns)
    | _, _ => none

def encMetrics (m : DeviceMetrics) : Json :=
  .obj [("cpu", .num m.cpu), ("mem", .num m.mem), ("netIn", .num m.netIn),
        ("netOut", .num m.netOut), ("msgRate", .num m.msgRate),
        ("failedAuth", .num m.failedAuth), ("timestamp", .num m.timestamp)]

def decMetrics : Json → Option DeviceMetrics
  | .obj fs => do
    let c ← getField fs "cpu" >>= decQ
    let me ← getField fs "mem" >>= decQ
    let ni ← getField fs "netIn" >>= decQ
    let no ← getField fs "netOut" >>= decQ
    let mr ← getField fs "msgRate" >>= decQ
    let fa ← getField fs "failedAuth" >>= decQ
    let t ← getField fs "timestamp" >>= decNat
    pure ⟨c, me, ni, no, mr, fa, t⟩
  | _ => none

def encEvent (e : SimulationEvent) : Json :=
  .obj ([("id", .str e.id), ("timestamp", .num e.timestamp), ("deviceId", .str e.deviceId)]
    ++ (match e.deviceName with
        | none => []
        | some n => [("deviceName", .str n)])
    ++ [("type", .str (eventTypeKey e.type)),
        ("severity", .str (severityKey e.severity)),
        ("message", .str e.message)])

def decEvent : Json → Option SimulationEvent
  | .obj fs => do
    let i ← getField fs "id" >>= decStr
    let t ← getField fs "timestamp" >>= decNat
    let di ← getField fs "deviceId" >>= decStr
    let dn ← match getField fs "deviceName" with
             | none => pure (none : Option String)
             | some j => (decStr j).map some
    let ty ← getField fs "type" >>= decStr >>= decEventType
    let sv ← getField fs "severity" >>= decStr >>= decSeverity
    let ms ← getField fs "message" >>= decStr
    pure ⟨i, t, di, dn, ty, sv, ms⟩
  | _ => none

def encDevice (d : Device) : Json :=
  .obj [("id", .str d.id), ("name", .str d.name), ("type", .str (deviceTypeKey d.dtype)),
        ("firmwareVersion", .str d.firmwareVersion), ("weakPassword", .jbool d.weakPassword),
        ("openPorts", .arr (d.openPorts.map (fun (n : ℕ) => Json.num (n : ℚ)))),
        ("compromised", .jbool d.compromised), ("integrityRisk", .jbool d.integrityRisk),
        ("metrics", encMetrics d.metrics), ("lastUpdated", .num d.lastUpdated),
        ("riskScore", .num d.riskScore),
        ("lastEvent", match d.lastEvent with
                      | none => .null
                      | some e => encEvent e)]

def decLastEvent : Json → Option (Option SimulationEvent)
  | .null => some none
  | .obj fs => (decEvent (.obj fs)).map some
  | _ => none

def decDevice : Json → Option Device
  | .obj fs => do
    let i ← getField fs "id" >>= decStr
    let nm ← getField fs "name" >>= decStr
    let ty ← getField fs "type" >>= decStr >>= decDeviceType
    let fw ← getField fs "firmwareVersion" >>= decStr
    let wp ← getField fs "weakPassword" >>= decBool
    let psj ← getField fs "openPorts"
    let ps ← match psj with
             | .arr xs => decListNat xs
             | _ => none
    let c ← getField fs "compromised" >>= decBool
    let ir ← getField fs "integrityRisk" >>= decBool
    let m ← getField fs "metrics" >>= decMetrics
    let lu ← getField fs "lastUpdated" >>= decNat
    let rsq ← getField fs "riskScore" >>= decQ
    let le ← getField fs "lastEvent" >>= decLastEvent
    pure ⟨i, nm, ty, fw, wp, ps, c, ir, m, lu, rsq, le⟩
  | _ => none

def decListDevice : List Json → Option (List Device)
  | [] => some []
  | j :: js =>
    match decDevice j, decListDevice js with
    | some d, some ds => some (d :: ds)
    | _, _ => none

def encAttack (a : AttackState) : Json :=
  .obj [("synFlood", .num a.synFlood), ("dictionaryAttack", .num a.dictionaryAttack),
        ("mqttFlood", .num a.mqttFlood), ("firmwareTamper", .jbool a.firmwareTamper)]

def decAttack : Json → Option AttackState
  | .obj fs => do
    let s ← getField fs "synFlood" >>= decQ
    let da ← getField fs "dictionaryAttack" >>= decQ
    let mq ← getField fs "mqttFlood" >>= decQ
    let ft ← getField fs "firmwareTamper" >>= decBool
    pure ⟨s, da, mq, ft⟩
  | _ => none

def encDefense (df : DefenseState) : Json :=
  .obj [("rateLimiting", .jbool df.rateLimiting),
        ("accountLockout", .jbool df.accountLockout),
        ("signatureCheck", .jbool df.signatureCheck)]

def decDefense : Json → Option DefenseState
  | .obj fs => do
    let rl ← getField fs "rateLimiting" >>= decBool
    let al ← getField fs "accountLockout" >>= decBool
    let sc ← getField fs "signatureCheck" >>= decBool
    pure ⟨rl, al, sc⟩
  | _ => none

def encState (s : SimulationState) : Json :=
  .obj [("running", .jbool s.running), ("startedAt", .num s.startedAt),
        ("lastUpdated", .num s.lastUpdated), ("tickInterval", .num s.tickInterval),
        ("devices", .arr (s.devices.map encDevice)),
        ("attack", encAttack s.attack), ("defense", encDefense s.defense)]

def decState : Json → Option SimulationState
  | .obj fs => do
    let r ← getField fs "running" >>= decBool
    let sa ← getField fs "startedAt" >>= decNat
    let lu ← getField fs "lastUpdated" >>= decNat
    let ti ← getField fs "tickInterval" >>= decNat
    let dsj ← getField fs "devices"
    let ds ← match dsj with
             | .arr xs => decListDevice xs
             | _ => none
    let a ← getField fs "attack" >>= decAttack
    let df ← getField fs "defense" >>= decDefense
    pure ⟨r, sa, lu, ti, ds, a, df⟩
  | _ => none

/-- JSON.parse(JSON.stringify(state)). -/
def jsonClone (s : SimulationState) : SimulationState :=
  (decState (encState s)).getD s

/-- A heap of snapshot cells with a fresh-handle counter. -/
structure Store where
  cells : List (ℕ × SimulationState)
  next : ℕ

def Store.empty : Store := ⟨[], 0⟩

def Store.alloc (st : Store) (v : SimulationState) : ℕ × Store :=
  (st.next, ⟨(st.next, v) :: st.cells, st.next + 1⟩)

def Store.lookup (st : Store) (h : ℕ) : Option SimulationState :=
  (st.cells.find? (fun c => c.1 = h)).map Prod.snd

def Store.write (st : Store) (h : ℕ) (v : SimulationState) : Store :=
  ⟨st.cells.map (fun c => if c.1 = h then (h, v) else c), st.next⟩

/-- getState (engine.ts lines 198-200): allocate a fresh cell holding the
JSON round-trip copy of the engine-owned state. -/
def getState (s : SimulationState) (st : Store) : ℕ × Store :=
  st.alloc (jsonClone s)

theorem decNat_natCast (n : ℕ) : decNat (.num (n : ℚ)) = some n := by
  simp [decNat, Rat.den_natCast, Rat.num_natCast]

theorem eventTypeKey_rt (t : SimEventType) : decEventType (eventTypeKey t) = some t := by
  cases t <;> rfl

theorem severityKey_rt (sv : Severity) : decSeverity (severityKey sv) = some sv := by
  cases sv <;> rfl

theorem deviceTypeKey_rt (t : DeviceType) : decDeviceType (deviceTypeKey t) = some t := by
  cases t <;> rfl

theorem decMetrics_rt (m : DeviceMetrics) : decMetrics (encMetrics m) = some m := by
  cases m
  simp [encMetrics, decMetrics, getField, decQ, decNat_natCast]

theorem decEvent_rt (e : SimulationEvent) : decEvent (encEvent e) = some e := by
  rcases e with ⟨i, t, di, dn, ty, sv, ms⟩
  cases dn <;>
    simp [encEvent, decEvent, getField, decStr, decNat_natCast,
      eventTypeKey_rt, severityKey_rt]

theorem decListNat_rt (xs : List ℕ) :
    decListNat (xs.map (fun (n : ℕ) => Json.num (n : ℚ))) = some xs := by
  induction xs with
  | nil => rfl
  | cons x xs ih => simp only [List.map_cons, decListNat, decNat_natCast, ih]

theorem decLastEvent_null : decLastEvent .null = some none := rfl

theorem decLastEvent_some (e : SimulationEvent) :
    decLastEvent (encEvent e) = some (some e) := by
  have h : decLastEvent (encEvent e) = Option.map some (decEvent (encEvent e)) := rfl
  rw [h, decEvent_rt]
  rfl

theorem decDevice_rt (d : Device) : decDevice (encDevice d) = some d := by
  rcases d with ⟨i, nm, ty, fw, wp, ps, c, ir, m, lu, rsq, le⟩
  cases le <;>
    simp [encDevice, decDevice, getField, decStr, decBool, decQ, decNat_natCast,
      deviceTypeKey_rt, decMetrics_rt, decListNat_rt, decLastEvent_null, decLastEvent_some]

theorem decListDevice_rt (ds : List Device) :
    decListDevice (ds.map encDevice) = some ds := by
  induction ds with
  | nil => rfl
  | cons d ds ih => simp only [List.map_cons, decListDevice, decDevice_rt, ih]

theorem decAttack_rt (a : AttackState) : decAttack (encAttack a) = some a := by
  cases a
  simp [encAttack, decAttack, getField, decQ, decBool]

theorem decDefense_rt (df : DefenseState) : decDefense (encDefense df) = some df := by
  cases df
  simp [encDefense, decDefense, getField, decBool]

theorem decState_rt (s : SimulationState) : decState (encState s) = some s := by
  rcases s with ⟨r, sa, lu, ti, ds, a, df⟩
  simp [encState, decState, getField, decBool, decNat_natCast, decListDevice_rt,
    decAttack_rt, decDefense_rt]

/-- The JSON round-trip of getState reproduces the state value exactly. -/
theorem jsonClone_eq (s : SimulationState) : jsonClone s = s := by
  simp [jsonClone, decState_rt]

theorem rand_fst (rs : List ℚ) : (rand rs).1 = rs.headD 0 := by
  cases rs <;> rfl

theorem rand_snd (rs : List ℚ) : (rand rs).2 = rs.drop 1 := by
  cases rs <;> rfl

theorem draw_zero (rs : List ℚ) : draw rs 0 = rs.headD 0 := by
  simp [draw]

theorem draw_valid (rs : List ℚ) (k : ℕ) (hv : ValidDraws rs) :
    0 ≤ draw rs k ∧ draw rs k < 1 := by
  unfold draw
  cases h : rs.drop k with
  | nil => norm_num
  | cons a l =>
    have ha : a ∈ rs := List.drop_subset k rs (h ▸ List.mem_cons_self a l)
    simpa using hv a ha

theorem ValidDraws_drop (rs : List ℚ) (k : ℕ) (hv : ValidDraws rs) :
    ValidDraws (rs.drop k) :=
  fun r hr => hv r (List.drop_subset k rs hr)

theorem ValidDraws_nil : ValidDraws [] := by
  intro r hr
  simp at hr

theorem range_map_add (n i : ℕ) :
    (List.range (n + 1)).map (· + i) = i :: (List.range n).map (· + (i + 1)) := by
  rw [List.range_succ_eq_map]
  simp only [List.map_cons, List.map_map, Nat.zero_add]
  refine congrArg _ (List.map_congr_left fun x _ => ?_)
  simp [Function.comp]
  omega

theorem runListenersAux_ok (ev : SimulationEvent) (ls : List Listener) :
    ∀ (i : ℕ), (∀ l ∈ ls, l ev = none) →
      runListenersAux ev ls i = ((List.range ls.length).map (· + i), none) := by
  induction ls with
  | nil => intro i _; simp [runListenersAux]
  | cons a as ih =>
    intro i h
    have ha : a ev = none := h a (by simp)
    have ih2 := ih (i + 1) (fun l' hm => h l' (by simp [hm]))
    simp [runListenersAux, ha, ih2, range_map_add]

theorem runListenersAux_throw (ev : SimulationEvent) (l : Listener) (ls₂ : List Listener)
    (err : String) (hl : l ev = some err) :
    ∀ (ls₁ : List Listener) (i : ℕ), (∀ l' ∈ ls₁, l' ev = none) →
      runListenersAux ev (ls₁ ++ l :: ls₂) i =
        ((List.range (ls₁.length + 1)).map (· + i), some err) := by
  intro ls₁
  induction ls₁ with
  | nil => intro i _; simp [runListenersAux, hl, List.range_succ]
  | cons a as ih =>
    intro i h
    have ha : a ev = none := h a (by simp)
    have ih2 := ih (i + 1) (fun l' hm => h l' (by simp [hm]))
    simp [runListenersAux, ha, ih2, range_map_add]

/-- The deterministic risk formula as the specification states it: category
base, plus the weak-password, cpu, network, failed-auth, compromise and
integrity addends, clamped into [0, 100]. -/
def claimRiskFormula (d : Device) : ℚ :=
  min 100 (max 0
    (baseRisks d.dtype
      + (if d.weakPassword then 20 else 0)
      + (if 80 < d.metrics.cpu then 15 else if 50 < d.metrics.cpu then 7 else 0)
      + (if 500 < d.metrics.netIn ∨ 500 < d.metrics.netOut then 15
         else if 200 < d.metrics.netIn ∨ 200 < d.metrics.netOut then 7 else 0)
      + (if 5 < d.metrics.failedAuth then 20 else if 0 < d.metrics.failedAuth then 5 else 0)
      + (if d.compromised then 30 else 0)
      + (if d.integrityRisk then 25 else 0)))

/-- The scenario device of the claim: a door lock with compromised,
integrityRisk and weakPassword all set and cpu = 100. -/
def doorLockScenario : Device :=
  { id := "device-1"
    name := "Door lock 1"
    dtype := .door_lock
    firmwareVersion := "1.0.0"
    weakPassword := true
    openPorts := [80, 443, 3001]
    compromised := true
    integrityRisk := true
    metrics := ⟨100, 12, 3, 3, 1/2, 0, 0⟩
    lastUpdated := 0
    riskScore := 0
    lastEvent := none }

/-- C4: every device's recomputed risk score equals the clamped deterministic
formula (category base 60/45/40/30/25, +20 weak password, +15/+7 cpu,
+15/+7 network, +20/+5 failed auth, +30 compromised, +25 integrity risk), and
the door-lock scenario device scores exactly 100. -/
theorem C4_risk_formula :
    (∀ d : Device, calculateDeviceRisk d = claimRiskFormula d) ∧
    calculateDeviceRisk doorLockScenario = 100 ∧
    baseRisks .door_lock = 60 ∧ baseRisks .ip_camera = 45 ∧ baseRisks .cctv = 40 ∧
    baseRisks .thermostat = 30 ∧ baseRisks .smart_bulb = 25 :=
  ⟨fun _ => rfl,
   by norm_num [calculateDeviceRisk, doorLockScenario, baseRisks, min_def, max_def],
   rfl, rfl, rfl, rfl, rfl⟩

/-- The single event setAttackState emits when the partial update carries
firmwareTamper = b. -/
def firmwareTamperEvent (now : ℕ) (b : Bool) : SimulationEvent :=
  { id := ""
    timestamp := now
    deviceId := "system"
    deviceName := some "System"
    type := if b then .tampering else .info
    severity := if b then .critical else .info
    message := if b then "Firmware tampering detected across all devices!"
               else "Firmware integrity restored" }

/-- C7: a setAttackState call whose partial update contains firmwareTamper = b
sets integrityRisk := b on every device in the same call and emits exactly the
one event (critical tampering message when b, info restoration message
otherwise). -/
theorem C7_firmware_tamper_set (p : AttackPatch) (s : SimulationState) (now : ℕ) (b : Bool)
    (hp : p.firmwareTamper = some b) :
    (∀ d ∈ (setAttackState p s now).1.devices, d.integrityRisk = b) ∧
    (setAttackState p s now).2 = [firmwareTamperEvent now b] := by
  constructor
  · intro d hd
    simp [setAttackState, hp, List.mem_map] at hd
    obtain ⟨x, _, rfl⟩ := hd
    rfl
  · simp [setAttackState, hp, firmwareTamperEvent]

/-- C7 witness: setting firmwareTamper := true on the freshly constructed
state flips integrityRisk on every device and emits the critical event. -/
theorem C7_firmware_tamper_set_witness :
    (∀ d ∈ (setAttackState ⟨none, none, none, some true⟩
              (createInitialState 0 []).1 0).1.devices, d.integrityRisk = true) ∧
    (setAttackState ⟨none, none, none, some true⟩ (createInitialState 0 []).1 0).2 =
      [firmwareTamperEvent 0 true] :=
  C7_firmware_tamper_set ⟨none, none, none, some true⟩ (createInitialState 0 []).1 0 true rfl

theorem BASE_METRICS_failedAuth (t : DeviceType) : (BASE_METRICS t).failedAuth = 0 := by
  cases t <;> rfl

theorem calculateDeviceMetrics_failedAuth (base : BaseMetrics) (af : ℚ) (tp : Bool)
    (now : ℕ) (rs : List ℚ) :
    ((calculateDeviceMetrics base af tp now rs).1).failedAuth = base.failedAuth := by
  unfold calculateDeviceMetrics
  split <;> rfl

theorem refreshDevice_failedAuth (now : ℕ) (d : Device) (rs : List ℚ) :
    ((refreshDevice now d rs).1).metrics.failedAuth = 0 := by
  unfold refreshDevice
  have h : ((calculateDeviceMetrics (BASE_METRICS d.dtype)
      (if d.compromised then 3/2 else 1) d.integrityRisk now rs).1).failedAuth = 0 := by
    rw [calculateDeviceMetrics_failedAuth, BASE_METRICS_failedAuth]
  simp [h]

theorem refreshDevices_failedAuth (now : ℕ) (ds : List Device) :
    ∀ (rs : List ℚ), ∀ d ∈ (refreshDevices now ds rs).1, d.metrics.failedAuth = 0 := by
  induction ds with
  | nil => intro rs d hd; simp [refreshDevices] at hd
  | cons a as ih =>
    intro rs d hd
    simp only [refreshDevices] at hd
    rcases List.mem_cons.mp hd with h | h
    · rw [h]; exact refreshDevice_failedAuth now a rs
    · exact ih _ d h

/-- C10: after every metric-refresh iteration each device's failedAuth is 0,
because the fresh snapshot takes failedAuth from the per-category baseline
table (every entry 0), so the probabilistic decrement branch is never taken. -/
theorem C10_refresh_clears_failedAuth :
    (∀ t : DeviceType, (BASE_METRICS t).failedAuth = 0) ∧
    ∀ (s : SimulationState) (now : ℕ) (rs : List ℚ),
      ∀ d ∈ (updateDeviceMetrics s now rs).1.devices, d.metrics.failedAuth = 0 := by
  refine ⟨BASE_METRICS_failedAuth, fun s now rs d hd => ?_⟩
  exact refreshDevices_failedAuth now s.devices rs d hd

/-- A concrete pre-refresh state whose single device carries a nonzero
failedAuth count. -/
def failedAuthState : SimulationState :=
  { running := true
    startedAt := 0
    lastUpdated := 0
    tickInterval := 500
    devices := [{ doorLockScenario with metrics := ⟨100, 12, 3, 3, 1/2, 7, 0⟩ }]
    attack := ⟨0, 100, 0, false⟩
    defense := ⟨false, false, false⟩ }

/-- C10 witness: refreshing a device that had failedAuth = 7 leaves it at 0. -/
theorem C10_refresh_clears_failedAuth_witness :
    ((updateDeviceMetrics failedAuthState 0 []).1.devices.headD doorLockScenario).metrics.failedAuth
      = 0 :=
  C10_refresh_clears_failedAuth.2 failedAuthState 0 []
    ((updateDeviceMetrics failedAuthState 0 []).1.devices.headD doorLockScenario)
    (by simp [updateDeviceMetrics, refreshDevices, failedAuthState])

def okListener : Listener := fun _ => none

def throwingListener : Listener := fun _ => some "boom"

def sampleEvent : SimulationEvent := systemInfoEvent 0 "sample"

/-- C2 (amended): emitEvent invokes listeners synchronously in registration
order, each at most once; when no listener throws, every listener is invoked
exactly once and delivery completes; when a listener throws, the exception
propagates out of emitEvent (aborting the tick), the throwing listener is the
last one invoked, and subsequent listeners are never invoked. -/
theorem C2_listener_delivery (ev : SimulationEvent) (ls : List Listener) :
    ((∀ l ∈ ls, l ev = none) → emitEvent ls ev = (List.range ls.length, none)) ∧
    (∀ (ls₁ : List Listener) (l : Listener) (ls₂ : List Listener) (err : String),
      ls = ls₁ ++ l :: ls₂ → (∀ l' ∈ ls₁, l' ev = none) → l ev = some err →
      emitEvent ls ev = (List.range (ls₁.length + 1), some err)) := by
  constructor
  · intro h
    have h2 := runListenersAux_ok ev ls 0 h
    simpa [emitEvent] using h2
  · intro ls₁ l ls₂ err hsplit h1 hl
    subst hsplit
    have h2 := runListenersAux_throw ev l ls₂ err hl ls₁ 0 h1
    simpa [emitEvent] using h2

/-- C2 witness: two well-behaved listeners are both invoked in order with no
propagated exception; with a throwing listener at index 1, exactly indices 0
and 1 are invoked and the exception propagates. -/
theorem C2_listener_delivery_witness :
    emitEvent [okListener, okListener] sampleEvent = (List.range 2, none) ∧
    emitEvent [okListener, throwingListener, okListener] sampleEvent =
      (List.range 2, some "boom") := by
  constructor
  · refine (C2_listener_delivery sampleEvent _).1 ?_
    intro l hl
    simp only [List.mem_cons, List.not_mem_nil, or_false] at hl
    rcases hl with rfl | rfl <;> rfl
  · refine (C2_listener_delivery sampleEvent _).2 [okListener] throwingListener [okListener]
      "boom" rfl ?_ rfl
    intro l hl
    simp only [List.mem_cons, List.not_mem_nil, or_false] at hl
    rcases hl with rfl
    rfl

/-- C2 counterexample: emitEvent has no per-listener exception handling.  With
a throwing listener at index 0, only index 0 is invoked: the exception is not
caught and ignored but propagates (second component is some, not none), and
the subsequent listener (index 1) is never invoked, contrary to the claim. -/
theorem C2_counterexample :
    emitEvent [throwingListener, okListener] sampleEvent = ([0], some "boom") ∧
    (1 : ℕ) ∉ ([0] : List ℕ) ∧ some "boom" ≠ (none : Option String) :=
  ⟨rfl, by decide, by decide⟩

/-- C9: two consecutive getState calls with no intervening mutation return
snapshots that are deep-equal to the engine state (and to each other) but live
at distinct references; overwriting the cell behind one reference with any
value changes neither the other snapshot nor the engine-owned value, which the
store never aliases. -/
theorem C9_getState_snapshots (s : SimulationState) (v : SimulationState) :
    ((getState s (getState s Store.empty).2).2.lookup (getState s Store.empty).1 = some s) ∧
    ((getState s (getState s Store.empty).2).2.lookup
        (getState s (getState s Store.empty).2).1 = some s) ∧
    ((getState s Store.empty).1 ≠ (getState s (getState s Store.empty).2).1) ∧
    (((getState s (getState s Store.empty).2).2.write (getState s Store.empty).1 v).lookup
        (getState s (getState s Store.empty).2).1 = some s) ∧
    (((getState s (getState s Store.empty).2).2.write (getState s Store.empty).1 v).lookup
        (getState s Store.empty).1 = some v) := by
  refine ⟨?_, ?_, ?_, ?_, ?_⟩ <;>
    simp [getState, Store.alloc, Store.empty, Store.lookup, Store.write,
      List.find?, jsonClone_eq]

/-- C1: the claim that pause()/reset() stop all three periodic loops fails in
the code: start() stores only the tick-interval handle and discards the
metric-refresh and risk-refresh interval handles (engine.ts lines 108-112), so
pause() (and hence reset(), which delegates to pause()) clears only the tick
interval, and the metric and risk intervals remain scheduled and keep firing
on the torn-down state. -/
theorem C1_pause_reset_leave_refresh_loops :
    ((((initialEngine 0 []).start 0).1.pause 0).1.state.running = false) ∧
    ((((initialEngine 0 []).start 0).1.pause 0).1.tickHandle = none) ∧
    (¬ (((initialEngine 0 []).start 0).1.pause 0).1.hasTimer .tick) ∧
    ((((initialEngine 0 []).start 0).1.pause 0).1.hasTimer .metric) ∧
    ((((initialEngine 0 []).start 0).1.pause 0).1.hasTimer .risk) ∧
    ((((initialEngine 0 []).start 0).1.reset 0 []).1.hasTimer .metric) ∧
    ((((initialEngine 0 []).start 0).1.reset 0 []).1.hasTimer .risk) := by
  decide


/-- Draws remaining after the SYN-flood block (3 consumed when active). -/
def afterSynDraws (a : AttackState) (rs : List ℚ) : List ℚ :=
  if 0 < a.synFlood then rs.drop 3 else rs

theorem synFloodStep_eq (a : AttackState) (d : Device) (now : ℕ) (rs : List ℚ) :
    synFloodStep a d now rs =
      if 0 < a.synFlood then
        ({ d with metrics := { d.metrics with
             netIn := d.metrics.netIn + 500 * (a.synFlood / 100) * (1 + draw rs 0),
             cpu := d.metrics.cpu + 10 * (a.synFlood / 100) * (1 + draw rs 1) } },
         (if draw rs 2 < 1/10 * (a.synFlood / 100) then
            [synEvent a { d with metrics := { d.metrics with
               netIn := d.metrics.netIn + 500 * (a.synFlood / 100) * (1 + draw rs 0),
               cpu := d.metrics.cpu + 10 * (a.synFlood / 100) * (1 + draw rs 1) } } now]
          else []),
         rs.drop 3)
      else (d, [], rs) := by
  rcases rs with _ | ⟨r1, _ | ⟨r2, _ | ⟨r3, rest⟩⟩⟩ <;>
    (simp [synFloodStep, draw, rand]; split_ifs <;> rfl)

theorem dictionaryStep_eq (a : AttackState) (d : Device) (now : ℕ) (rs : List ℚ) :
    dictionaryStep a d now rs =
      if 0 < a.dictionaryAttack ∧ d.compromised = false then
        (if d.weakPassword = true then
          (if draw rs 0 < 5/100 * (a.dictionaryAttack / 100) then
            ({ d with
                compromised := true,
                metrics := { d.metrics with failedAuth := d.metrics.failedAuth
                  + ((⌊5 * (a.dictionaryAttack / 100)⌋ : ℤ) : ℚ) } },
             [compromiseEvent { d with metrics := { d.metrics with
                 failedAuth := d.metrics.failedAuth
                   + ((⌊5 * (a.dictionaryAttack / 100)⌋ : ℤ) : ℚ) } } now],
             rs.drop 1)
          else
            ({ d with metrics := { d.metrics with failedAuth := d.metrics.failedAuth
                 + ((⌊5 * (a.dictionaryAttack / 100)⌋ : ℤ) : ℚ) } }, [], rs.drop 1))
        else
          ({ d with metrics := { d.metrics with failedAuth := d.metrics.failedAuth
               + ((⌊5 * (a.dictionaryAttack / 100)⌋ : ℤ) : ℚ) } }, [], rs))
      else (d, [], rs) := by
  rcases rs with _ | ⟨r1, rest⟩ <;>
    simp [dictionaryStep, draw, rand]

theorem mqttStep_eq (a : AttackState) (d : Device) (now : ℕ) (rs : List ℚ) :
    mqttStep a d now rs =
      if 0 < a.mqttFlood then
        ({ d with metrics := { d.metrics with
             msgRate := d.metrics.msgRate + 50 * (a.mqttFlood / 100) * (1 + draw rs 0),
             cpu := d.metrics.cpu + 5 * (a.mqttFlood / 100) * (1 + draw rs 1) } },
         (if draw rs 2 < 1/10 * (a.mqttFlood / 100) then
            [mqttEvent a { d with metrics := { d.metrics with
               msgRate := d.metrics.msgRate + 50 * (a.mqttFlood / 100) * (1 + draw rs 0),
               cpu := d.metrics.cpu + 5 * (a.mqttFlood / 100) * (1 + draw rs 1) } } now]
          else []),
         rs.drop 3)
      else (d, [], rs) := by
  rcases rs with _ | ⟨r1, _ | ⟨r2, _ | ⟨r3, rest⟩⟩⟩ <;>
    (simp [mqttStep, draw, rand]; split_ifs <;> rfl)

theorem tamperStep_eq (a : AttackState) (d : Device) (now : ℕ) (rs : List ℚ) :
    tamperStep a d now rs =
      if a.firmwareTamper = true ∧ d.integrityRisk = false then
        (if draw rs 0 < 5/100 then
          ({ d with integrityRisk := true }, [tamperEvent d now], rs.drop 1)
         else (d, [], rs.drop 1))
      else (d, [], rs) := by
  rcases rs with _ | ⟨r1, rest⟩ <;>
    simp [tamperStep, draw, rand]


theorem synFloodStep_keeps (a : AttackState) (d : Device) (now : ℕ) (rs : List ℚ) :
    (synFloodStep a d now rs).1.metrics.failedAuth = d.metrics.failedAuth ∧
    (synFloodStep a d now rs).1.metrics.mem = d.metrics.mem ∧
    (synFloodStep a d now rs).1.compromised = d.compromised ∧
    (synFloodStep a d now rs).1.integrityRisk = d.integrityRisk ∧
    (synFloodStep a d now rs).1.weakPassword = d.weakPassword ∧
    (synFloodStep a d now rs).1.riskScore = d.riskScore ∧
    (synFloodStep a d now rs).1.id = d.id ∧
    (synFloodStep a d now rs).1.name = d.name ∧
    (synFloodStep a d now rs).1.dtype = d.dtype ∧
    (synFloodStep a d now rs).2.2 = afterSynDraws a rs ∧
    (∀ e ∈ (synFloodStep a d now rs).2.1, e.type = SimEventType.attack) := by
  rw [synFloodStep_eq]
  unfold afterSynDraws
  split_ifs <;> simp [synEvent, *]

theorem synFloodStep_cpu (a : AttackState) (d : Device) (now : ℕ) (rs : List ℚ) :
    (synFloodStep a d now rs).1.metrics.cpu
      = d.metrics.cpu
        + (if 0 < a.synFlood then 10 * (a.synFlood / 100) * (1 + draw rs 1) else 0) := by
  rw [synFloodStep_eq]
  split_ifs <;> simp

theorem synFloodStep_netIn (a : AttackState) (d : Device) (now : ℕ) (rs : List ℚ) :
    (synFloodStep a d now rs).1.metrics.netIn
      = d.metrics.netIn
        + (if 0 < a.synFlood then 500 * (a.synFlood / 100) * (1 + draw rs 0) else 0) := by
  rw [synFloodStep_eq]
  split_ifs <;> simp

theorem dictionaryStep_keeps (a : AttackState) (d : Device) (now : ℕ) (rs : List ℚ) :
    (dictionaryStep a d now rs).1.metrics.cpu = d.metrics.cpu ∧
    (dictionaryStep a d now rs).1.metrics.mem = d.metrics.mem ∧
    (dictionaryStep a d now rs).1.metrics.netIn = d.metrics.netIn ∧
    (dictionaryStep a d now rs).1.integrityRisk = d.integrityRisk ∧
    (dictionaryStep a d now rs).1.riskScore = d.riskScore ∧
    (dictionaryStep a d now rs).1.id = d.id ∧
    (dictionaryStep a d now rs).1.name = d.name ∧
    (dictionaryStep a d now rs).1.dtype = d.dtype ∧
    ((dictionaryStep a d now rs).2.2 = rs ∨ (dictionaryStep a d now rs).2.2 = rs.drop 1) ∧
    (∀ e ∈ (dictionaryStep a d now rs).2.1, e.type = SimEventType.compromise) := by
  rw [dictionaryStep_eq]
  split_ifs <;> simp [compromiseEvent, *]

theorem mqttStep_keeps (a : AttackState) (d : Device) (now : ℕ) (rs : List ℚ) :
    (mqttStep a d now rs).1.metrics.failedAuth = d.metrics.failedAuth ∧
    (mqttStep a d now rs).1.metrics.mem = d.metrics.mem ∧
    (mqttStep a d now rs).1.metrics.netIn = d.metrics.netIn ∧
    (mqttStep a d now rs).1.compromised = d.compromised ∧
    (mqttStep a d now rs).1.integrityRisk = d.integrityRisk ∧
    (mqttStep a d now rs).1.riskScore = d.riskScore ∧
    (mqttStep a d now rs).1.id = d.id ∧
    (mqttStep a d now rs).1.name = d.name ∧
    (mqttStep a d now rs).1.dtype = d.dtype ∧
    ((mqttStep a d now rs).2.2 = if 0 < a.mqttFlood then rs.drop 3 else rs) ∧
    (∀ e ∈ (mqttStep a d now rs).2.1, e.type = SimEventType.attack) := by
  rw [mqttStep_eq]
  split_ifs <;> simp [mqttEvent, *]

theorem mqttStep_cpu (a : AttackState) (d : Device) (now : ℕ) (rs : List ℚ) :
    (mqttStep a d now rs).1.metrics.cpu
      = d.metrics.cpu
        + (if 0 < a.mqttFlood then 5 * (a.mqttFlood / 100) * (1 + draw rs 1) else 0) := by
  rw [mqttStep_eq]
  split_ifs <;> simp

theorem tamperStep_keeps (a : AttackState) (d : Device) (now : ℕ) (rs : List ℚ) :
    (tamperStep a d now rs).1.metrics = d.metrics ∧
    (tamperStep a d now rs).1.compromised = d.compromised ∧
    (tamperStep a d now rs).1.riskScore = d.riskScore ∧
    (tamperStep a d now rs).1.id = d.id ∧
    (tamperStep a d now rs).1.name = d.name ∧
    (tamperStep a d now rs).1.dtype = d.dtype ∧
    ((tamperStep a d now rs).2.2 = rs ∨ (tamperStep a d now rs).2.2 = rs.drop 1) ∧
    (∀ e ∈ (tamperStep a d now rs).2.1, e.type = SimEventType.tampering) := by
  rw [tamperStep_eq]
  split_ifs <;> simp [tamperEvent, *]

/-- applyAttackEffects is the sequential composition of the four blocks, with
event lists concatenated in block order. -/
theorem applyAttackEffects_decomp (a : AttackState) (d : Device) (now : ℕ) (rs : List ℚ) :
    applyAttackEffects a d now rs =
      ((tamperStep a
          (mqttStep a
            (dictionaryStep a (synFloodStep a d now rs).1 now (synFloodStep a d now rs).2.2).1
            now
            (dictionaryStep a (synFloodStep a d now rs).1 now (synFloodStep a d now rs).2.2).2.2).1
          now
          (mqttStep a
            (dictionaryStep a (synFloodStep a d now rs).1 now (synFloodStep a d now rs).2.2).1
            now
            (dictionaryStep a (synFloodStep a d now rs).1 now (synFloodStep a d now rs).2.2).2.2).2.2).1,
       (synFloodStep a d now rs).2.1
         ++ ((dictionaryStep a (synFloodStep a d now rs).1 now (synFloodStep a d now rs).2.2).2.1
         ++ ((mqttStep a
              (dictionaryStep a (synFloodStep a d now rs).1 now (synFloodStep a d now rs).2.2).1
              now
              (dictionaryStep a (synFloodStep a d now rs).1 now
                (synFloodStep a d now rs).2.2).2.2).2.1
         ++ (tamperStep a
              (mqttStep a
                (dictionaryStep a (synFloodStep a d now rs).1 now (synFloodStep a d now rs).2.2).1
                now
                (dictionaryStep a (synFloodStep a d now rs).1 now
                  (synFloodStep a d now rs).2.2).2.2).1
              now
              (mqttStep a
                (dictionaryStep a (synFloodStep a d now rs).1 now (synFloodStep a d now rs).2.2).1
                now
                (dictionaryStep a (synFloodStep a d now rs).1 now
                  (synFloodStep a d now rs).2.2).2.2).2.2).2.1)),
       (tamperStep a
          (mqttStep a
            (dictionaryStep a (synFloodStep a d now rs).1 now (synFloodStep a d now rs).2.2).1
            now
            (dictionaryStep a (synFloodStep a d now rs).1 now (synFloodStep a d now rs).2.2).2.2).1
          now
          (mqttStep a
            (dictionaryStep a (synFloodStep a d now rs).1 now (synFloodStep a d now rs).2.2).1
            now
            (dictionaryStep a (synFloodStep a d now rs).1 now
              (synFloodStep a d now rs).2.2).2.2).2.2).2.2) := by
  unfold applyAttackEffects
  rcases synFloodStep a d now rs with ⟨d1, e1, rs1⟩
  dsimp only
  rcases dictionaryStep a d1 now rs1 with ⟨d2, e2, rs2⟩
  dsimp only
  rcases mqttStep a d2 now rs2 with ⟨d3, e3, rs3⟩
  dsimp only
  rcases tamperStep a d3 now rs3 with ⟨d4, e4, rs4⟩
  simp [List.append_assoc]


theorem filter_compromise_nil {evs : List SimulationEvent}
    (h : ∀ e ∈ evs, e.type = SimEventType.attack ∨ e.type = SimEventType.tampering) :
    evs.filter (fun e => e.type == SimEventType.compromise) = [] := by
  rw [List.filter_eq_nil_iff]
  intro e he
  rcases h e he with h1 | h1 <;> simp [h1]

/-- C5: in every tick, a device under dictionary attack (intensity > 0) that
is not yet compromised gains floor(5*(intensity/100)) failed-auth counts; if
it has a weak password and the per-tick draw succeeds with probability
0.05*(intensity/100), it becomes compromised and exactly one critical
compromise event is emitted for it; otherwise it stays uncompromised and no
compromise event is emitted. -/
theorem C5_dictionary_attack (a : AttackState) (d : Device) (now : ℕ) (rs : List ℚ)
    (hdict : 0 < a.dictionaryAttack) (hcomp : d.compromised = false) :
    (applyAttackEffects a d now rs).1.metrics.failedAuth
        = d.metrics.failedAuth + ((⌊5 * (a.dictionaryAttack / 100)⌋ : ℤ) : ℚ) ∧
    (d.weakPassword = true →
      (draw (afterSynDraws a rs) 0 < 5/100 * (a.dictionaryAttack / 100) →
        (applyAttackEffects a d now rs).1.compromised = true ∧
        (applyAttackEffects a d now rs).2.1.filter
            (fun e => e.type == SimEventType.compromise) = [compromiseEvent d now] ∧
        (compromiseEvent d now).severity = Severity.critical) ∧
      (¬ draw (afterSynDraws a rs) 0 < 5/100 * (a.dictionaryAttack / 100) →
        (applyAttackEffects a d now rs).1.compromised = false ∧
        (applyAttackEffects a d now rs).2.1.filter
            (fun e => e.type == SimEventType.compromise) = [])) ∧
    (d.weakPassword = false →
      (applyAttackEffects a d now rs).1.compromised = false ∧
      (applyAttackEffects a d now rs).2.1.filter
          (fun e => e.type == SimEventType.compromise) = []) := by
  have hdec := applyAttackEffects_decomp a d now rs
  obtain ⟨hfa1, hmem1, hc1, hir1, hw1, hrk1, hid1, hnm1, hdt1, hrs1, hev1⟩ :=
    synFloodStep_keeps a d now rs
  set S := synFloodStep a d now rs with hS
  have hkD := dictionaryStep_eq a S.1 now S.2.2
  obtain ⟨hfa3, _, _, hc3, _, _, _, _, _, _, hev3⟩ :=
    mqttStep_keeps a (dictionaryStep a S.1 now S.2.2).1 now (dictionaryStep a S.1 now S.2.2).2.2
  set D := dictionaryStep a S.1 now S.2.2 with hD
  obtain ⟨hm4, hc4, _, _, _, _, _, hev4⟩ :=
    tamperStep_keeps a (mqttStep a D.1 now D.2.2).1 now (mqttStep a D.1 now D.2.2).2.2
  set M := mqttStep a D.1 now D.2.2 with hM
  set T := tamperStep a M.1 now M.2.2 with hT
  have hcond : 0 < a.dictionaryAttack ∧ S.1.compromised = false :=
    ⟨hdict, by rw [hc1, hcomp]⟩
  rw [if_pos hcond, hw1, hrs1] at hkD
  have hfaT : T.1.metrics.failedAuth = D.1.metrics.failedAuth := by
    rw [hm4, hfa3]
  have hcT : T.1.compromised = D.1.compromised := by
    rw [hc4, hc3]
  have hfilter : (applyAttackEffects a d now rs).2.1.filter
      (fun e => e.type == SimEventType.compromise)
      = D.2.1.filter (fun e => e.type == SimEventType.compromise) := by
    rw [hdec]
    simp only [List.filter_append]
    rw [filter_compromise_nil (fun e he => Or.inl (hev1 e he)),
        filter_compromise_nil (fun e he => Or.inl (hev3 e he)),
        filter_compromise_nil (fun e he => Or.inr (hev4 e he))]
    simp
  have hout1 : (applyAttackEffects a d now rs).1 = T.1 := by rw [hdec]
  by_cases hwp : d.weakPassword = true
  · rw [if_pos hwp] at hkD
    by_cases hdraw : draw (afterSynDraws a rs) 0 < 5/100 * (a.dictionaryAttack / 100)
    · rw [if_pos hdraw] at hkD
      have hD1fa : D.1.metrics.failedAuth
          = d.metrics.failedAuth + ((⌊5 * (a.dictionaryAttack / 100)⌋ : ℤ) : ℚ) := by
        rw [hkD]
        simp [hfa1]
      have hD1c : D.1.compromised = true := by
        rw [hkD]
      have hDev : D.2.1.filter (fun e => e.type == SimEventType.compromise)
          = [compromiseEvent d now] := by
        rw [hkD]
        simp [compromiseEvent, hid1, hnm1]
      refine ⟨by rw [hout1, hfaT, hD1fa],
        fun _ => ⟨fun _ => ⟨by rw [hout1, hcT, hD1c], by rw [hfilter, hDev], rfl⟩,
          fun hn => absurd hdraw hn⟩,
        fun hwf => absurd hwp (by simp [hwf])⟩
    · rw [if_neg hdraw] at hkD
      have hD1fa : D.1.metrics.failedAuth
          = d.metrics.failedAuth + ((⌊5 * (a.dictionaryAttack / 100)⌋ : ℤ) : ℚ) := by
        rw [hkD]
        simp [hfa1]
      have hD1c : D.1.compromised = false := by
        rw [hkD]
        simp [hc1, hcomp]
      have hDev : D.2.1.filter (fun e => e.type == SimEventType.compromise) = [] := by
        rw [hkD]
        simp
      refine ⟨by rw [hout1, hfaT, hD1fa],
        fun _ => ⟨fun hy => absurd hy hdraw,
          fun _ => ⟨by rw [hout1, hcT, hD1c], by rw [hfilter, hDev]⟩⟩,
        fun hwf => absurd hwp (by simp [hwf])⟩
  · have hwf : d.weakPassword = false := by
      revert hwp
      cases d.weakPassword <;> simp
    rw [hwf] at hkD
    simp only [Bool.false_eq_true, if_false] at hkD
    have hD1fa : D.1.metrics.failedAuth
        = d.metrics.failedAuth + ((⌊5 * (a.dictionaryAttack / 100)⌋ : ℤ) : ℚ) := by
      rw [hkD]
      simp [hfa1]
    have hD1c : D.1.compromised = false := by
      rw [hkD]
      simp [hc1, hcomp]
    have hDev : D.2.1.filter (fun e => e.type == SimEventType.compromise) = [] := by
      rw [hkD]
      simp
    refine ⟨by rw [hout1, hfaT, hD1fa],
      fun hy => absurd hy (by simp [hwf]),
      fun _ => ⟨by rw [hout1, hcT, hD1c], by rw [hfilter, hDev]⟩⟩

/-- Attack state with only the dictionary knob raised to 100. -/
def dictA : AttackState := ⟨0, 100, 0, false⟩

/-- A weak-password, uncompromised door lock. -/
def dictDevice : Device :=
  { doorLockScenario with compromised := false, integrityRisk := false }

/-- C5 witness: at dictionary intensity 100 on a weak-password uncompromised
device with a successful draw, failedAuth grows by floor(5) = 5, the device is
compromised, and exactly one critical compromise event is emitted. -/
theorem C5_dictionary_attack_witness :
    (applyAttackEffects dictA dictDevice 0 [0]).1.metrics.failedAuth
        = dictDevice.metrics.failedAuth + ((⌊(5 : ℚ) * (100 / 100)⌋ : ℤ) : ℚ) ∧
    (applyAttackEffects dictA dictDevice 0 [0]).1.compromised = true ∧
    (applyAttackEffects dictA dictDevice 0 [0]).2.1.filter
        (fun e => e.type == SimEventType.compromise) = [compromiseEvent dictDevice 0] := by
  have h := C5_dictionary_attack dictA dictDevice 0 [0] (by norm_num [dictA]) rfl
  have h2 := (h.2.1 rfl).1 (by norm_num [dictA, afterSynDraws, draw])
  exact ⟨h.1, h2.1, h2.2.1⟩

/-- C6 (amended): with SYN-flood intensity > 0 (s = intensity/100), every tick
adds 500*s*(1+r1) to netIn and 10*s*(1+r2) to cpu with independent draws; when
the third draw succeeds (probability 0.1*s), the block emits exactly one
attack event whose severity is high above intensity 70, medium above 30, and
low otherwise (the three-tier ladder of the code, not the claim's two-tier
one); otherwise it emits nothing. -/
theorem C6_syn_flood (a : AttackState) (d : Device) (now : ℕ) (rs : List ℚ)
    (hsyn : 0 < a.synFlood) :
    (applyAttackEffects a d now rs).1.metrics.netIn
        = d.metrics.netIn + 500 * (a.synFlood / 100) * (1 + draw rs 0) ∧
    (a.mqttFlood ≤ 0 →
      (applyAttackEffects a d now rs).1.metrics.cpu
        = d.metrics.cpu + 10 * (a.synFlood / 100) * (1 + draw rs 1)) ∧
    (draw rs 2 < 1/10 * (a.synFlood / 100) →
      ∃ e, (synFloodStep a d now rs).2.1 = [e] ∧ e.type = SimEventType.attack ∧
        e.deviceId = d.id ∧
        e.severity = (if 70 < a.synFlood then Severity.high
                      else if 30 < a.synFlood then Severity.medium else Severity.low)) ∧
    (¬ draw rs 2 < 1/10 * (a.synFlood / 100) → (synFloodStep a d now rs).2.1 = []) := by
  have hnetS := synFloodStep_netIn a d now rs
  have hcpuS := synFloodStep_cpu a d now rs
  have hdec := applyAttackEffects_decomp a d now rs
  set S := synFloodStep a d now rs with hS
  obtain ⟨hcpu2, hmem2, hnet2, _, _, _, _, _, _, _⟩ := dictionaryStep_keeps a S.1 now S.2.2
  set D := dictionaryStep a S.1 now S.2.2 with hD
  obtain ⟨_, _, hnet3, _, _, _, _, _, _, _, _⟩ := mqttStep_keeps a D.1 now D.2.2
  have hcpuM := mqttStep_cpu a D.1 now D.2.2
  set M := mqttStep a D.1 now D.2.2 with hM
  obtain ⟨hm4, _, _, _, _, _, _, _⟩ := tamperStep_keeps a M.1 now M.2.2
  set T := tamperStep a M.1 now M.2.2 with hT
  have hout1 : (applyAttackEffects a d now rs).1 = T.1 := by rw [hdec]
  refine ⟨?_, ?_, ?_, ?_⟩
  · rw [hout1, hm4, hnet3, hnet2, hnetS, if_pos hsyn]
  · intro hmq
    have hncpu : ¬ 0 < a.mqttFlood := not_lt.mpr hmq
    rw [if_neg hncpu, add_zero] at hcpuM
    rw [hout1, hm4, hcpuM, hcpu2, hcpuS, if_pos hsyn]
  · intro hdrw
    rw [hS, synFloodStep_eq, if_pos hsyn, if_pos hdrw]
    refine ⟨_, rfl, ?_, ?_, ?_⟩ <;> simp [synEvent]
  · intro hdrw
    rw [hS, synFloodStep_eq, if_pos hsyn, if_neg hdrw]

/-- Attack state with only SYN flood at intensity 20. -/
def synA20 : AttackState := ⟨20, 0, 0, false⟩

/-- Attack state with only SYN flood at intensity 80. -/
def synA80 : AttackState := ⟨80, 0, 0, false⟩

/-- C6 witness: at intensity 80 with draws 0, netIn grows by 400, cpu by 8,
and the emitted event has severity high (80 > 70). -/
theorem C6_syn_flood_witness :
    (applyAttackEffects synA80 dictDevice 0 []).1.metrics.netIn
        = dictDevice.metrics.netIn + 500 * ((80 : ℚ) / 100) * (1 + draw [] 0) ∧
    (applyAttackEffects synA80 dictDevice 0 []).1.metrics.cpu
        = dictDevice.metrics.cpu + 10 * ((80 : ℚ) / 100) * (1 + draw [] 1) ∧
    ∃ e, (synFloodStep synA80 dictDevice 0 []).2.1 = [e] ∧
      e.type = SimEventType.attack ∧ e.deviceId = dictDevice.id ∧
      e.severity = (if (70 : ℚ) < 80 then Severity.high
                    else if (30 : ℚ) < 80 then Severity.medium else Severity.low) := by
  have h := C6_syn_flood synA80 dictDevice 0 [] (by norm_num [synA80])
  refine ⟨h.1, h.2.1 (by norm_num [synA80]), ?_⟩
  exact h.2.2.1 (by norm_num [synA80, draw])

/-- C6 counterexample: at intensity 20 with a successful emission draw, the
emitted event's severity is low, whereas the claim requires medium for any
intensity not above 70. -/
theorem C6_counterexample :
    ((synFloodStep synA20 dictDevice 0 [0, 0, 0]).2.1.map (fun e => e.severity))
        = [Severity.low] ∧
    Severity.low ≠ Severity.medium := by
  constructor
  · rw [synFloodStep_eq]
    norm_num [synA20, draw, synEvent]
  · decide


theorem BASE_METRICS_msgRate_ne (t : DeviceType) : (BASE_METRICS t).msgRate ≠ 0 := by
  cases t <;> norm_num [BASE_METRICS]

theorem calculateDeviceMetrics_eq (base : BaseMetrics) (af : ℚ) (tp : Bool) (now : ℕ)
    (rs : List ℚ) (hmsg : base.msgRate ≠ 0) :
    calculateDeviceMetrics base af tp now rs =
      (⟨variance (draw rs 0)
          (min 100 (base.cpu * ((1 + (af - 1) * (1/2)) * (if tp then 13/10 else 1)))),
        variance (draw rs 1)
          (min 100 (base.mem * ((1 + (af - 1) * (1/2)) * (if tp then 13/10 else 1)))),
        variance (draw rs 2) (base.netIn * ((1 + (af - 1) * (1/2)) * (if tp then 13/10 else 1))),
        variance (draw rs 3) (base.netOut * ((1 + (af - 1) * (1/2)) * (if tp then 13/10 else 1))),
        variance (draw rs 4) (base.msgRate * ((1 + (af - 1) * (1/2)) * (if tp then 13/10 else 1))),
        base.failedAuth, now⟩, rs.drop 5) := by
  rcases rs with _ | ⟨r1, _ | ⟨r2, _ | ⟨r3, _ | ⟨r4, _ | ⟨r5, rest⟩⟩⟩⟩⟩ <;>
    simp [calculateDeviceMetrics, rand, draw, hmsg]

/-- The effective metric-refresh multiplier: the code passes attack factor 1.5
for a compromised device, but calculateDeviceMetrics halves the excess over 1,
so the compromise multiplier is 1.25 (not 1.5); the tamper multiplier is 1.3. -/
def refreshMult (d : Device) : ℚ :=
  (if d.compromised then 5/4 else 1) * (if d.integrityRisk then 13/10 else 1)

theorem refreshDevice_eq (now : ℕ) (d : Device) (rs : List ℚ) :
    refreshDevice now d rs =
      ({ d with
          metrics := ⟨
            variance (draw rs 0) (min 100 ((BASE_METRICS d.dtype).cpu * refreshMult d)),
            variance (draw rs 1) (min 100 ((BASE_METRICS d.dtype).mem * refreshMult d)),
            variance (draw rs 2) ((BASE_METRICS d.dtype).netIn * refreshMult d),
            variance (draw rs 3) ((BASE_METRICS d.dtype).netOut * refreshMult d),
            variance (draw rs 4) ((BASE_METRICS d.dtype).msgRate * refreshMult d),
            0, now⟩,
          lastUpdated := now }, rs.drop 5) := by
  have hmult : (1 + ((if d.compromised then (3 : ℚ)/2 else 1) - 1) * (1/2))
      * (if d.integrityRisk then (13 : ℚ)/10 else 1) = refreshMult d := by
    unfold refreshMult
    cases d.compromised <;> cases d.integrityRisk <;> norm_num
  unfold refreshDevice
  dsimp only
  rw [calculateDeviceMetrics_eq _ _ _ _ _ (BASE_METRICS_msgRate_ne d.dtype), hmult]
  simp [BASE_METRICS_failedAuth]

theorem refreshDevices_getElem (now : ℕ) (ds : List Device) :
    ∀ (rs : List ℚ) (i : ℕ),
      ((refreshDevices now ds rs).1)[i]?
        = (ds[i]?).map (fun d => (refreshDevice now d (rs.drop (5 * i))).1) := by
  induction ds with
  | nil => intro rs i; simp [refreshDevices]
  | cons d ds ih =>
    intro rs i
    have hsnd : (refreshDevice now d rs).2 = rs.drop 5 := by rw [refreshDevice_eq]
    cases i with
    | zero => simp [refreshDevices]
    | succ j =>
      simp only [refreshDevices, hsnd, List.getElem?_cons_succ]
      have hdrop : (rs.drop 5).drop (5 * j) = rs.drop (5 * (j + 1)) := by
        rw [List.drop_drop]
        congr 1
        omega
      rw [ih (rs.drop 5) j, hdrop]

/-- C8 (amended): each metric-refresh iteration replaces device i's metrics
snapshot with the category baseline scaled by the effective compromise
multiplier 1.25 (the code passes attack factor 1.5 but calculateDeviceMetrics
maps it to 1 + (1.5-1)*0.5 = 1.25) times tamper multiplier 1.3, with ±20%
independent jitter per value (cpu and mem clamped at 100 before jitter), using
the five draws at offset 5i; the fresh snapshot's failedAuth is the baseline 0,
so the probabilistic decrement branch (guarded by failedAuth > 0) is not
taken. -/
theorem C8_metric_refresh (s : SimulationState) (now : ℕ) (rs : List ℚ) (i : ℕ) :
    ((updateDeviceMetrics s now rs).1.devices[i]?
      = (s.devices[i]?).map (fun d =>
          { d with
            metrics := ⟨
              variance (draw (rs.drop (5 * i)) 0)
                (min 100 ((BASE_METRICS d.dtype).cpu * refreshMult d)),
              variance (draw (rs.drop (5 * i)) 1)
                (min 100 ((BASE_METRICS d.dtype).mem * refreshMult d)),
              variance (draw (rs.drop (5 * i)) 2) ((BASE_METRICS d.dtype).netIn * refreshMult d),
              variance (draw (rs.drop (5 * i)) 3) ((BASE_METRICS d.dtype).netOut * refreshMult d),
              variance (draw (rs.drop (5 * i)) 4) ((BASE_METRICS d.dtype).msgRate * refreshMult d),
              0, now⟩,
            lastUpdated := now })) ∧
    (∀ dv : Device, refreshMult dv
      = (if dv.compromised then (5 : ℚ)/4 else 1) * (if dv.integrityRisk then (13 : ℚ)/10 else 1)) := by
  constructor
  · have h := refreshDevices_getElem now s.devices rs i
    simp only [updateDeviceMetrics]
    rw [h]
    rcases s.devices[i]? with _ | d
    · rfl
    · simp [refreshDevice_eq]
  · intro dv
    rfl

/-- A compromised, untampered ip_camera used for the C8 counterexample. -/
def c8dev : Device :=
  { id := "device-1"
    name := "Ip camera 1"
    dtype := .ip_camera
    firmwareVersion := "1.0.0"
    weakPassword := false
    openPorts := [80, 443, 554, 8000, 9000]
    compromised := true
    integrityRisk := false
    metrics := ⟨20, 40, 300, 800, 15, 0, 0⟩
    lastUpdated := 0
    riskScore := 0
    lastEvent := none }

def c8State : SimulationState :=
  { running := true
    startedAt := 0
    lastUpdated := 0
    tickInterval := 500
    devices := [c8dev]
    attack := ⟨0, 0, 0, false⟩
    defense := ⟨false, false, false⟩ }

/-- C8 counterexample: refreshing the compromised ip_camera with all-zero
jitter draws yields netOut = 800 (baseline 800 x effective multiplier 1.25 x
jitter 0.8), but the claim's formula baseline x 1.5 x jitter never attains
800 for any jitter draw in [0, 1): its minimum is 960. -/
theorem C8_counterexample :
    ((updateDeviceMetrics c8State 0 [0, 0, 0, 0, 0]).1.devices.headD c8dev).metrics.netOut
        = 800 ∧
    ¬ ∃ r : ℚ, 0 ≤ r ∧ r < 1 ∧
        (800 : ℚ) = (BASE_METRICS DeviceType.ip_camera).netOut * (3/2)
          * (1 + (r * 2 - 1) * (1/5)) := by
  constructor
  · simp only [updateDeviceMetrics, c8State, refreshDevices, refreshDevice_eq]
    norm_num [c8dev, refreshMult, variance, draw, BASE_METRICS, METRIC_VARIANCE]
  · rintro ⟨r, hr0, _, heq⟩
    rw [show (BASE_METRICS DeviceType.ip_camera).netOut = 800 from rfl] at heq
    nlinarith [heq]


/-- The per-device bounds of the claim, minus the refuted cpu upper bound. -/
def DeviceBounds (d : Device) : Prop :=
  0 ≤ d.riskScore ∧ d.riskScore ≤ 100 ∧
  0 ≤ d.metrics.mem ∧ d.metrics.mem ≤ 100 ∧
  0 ≤ d.metrics.cpu

/-- Attack intensities within the transport-validated range. -/
def AttackRange (a : AttackState) : Prop :=
  (0 ≤ a.synFlood ∧ a.synFlood ≤ 100) ∧
  (0 ≤ a.dictionaryAttack ∧ a.dictionaryAttack ≤ 100) ∧
  (0 ≤ a.mqttFlood ∧ a.mqttFlood ≤ 100)

def StateInv (s : SimulationState) : Prop :=
  AttackRange s.attack ∧ ∀ d ∈ s.devices, DeviceBounds d

theorem variance_bounds (r v : ℚ) (hr0 : 0 ≤ r) (hr1 : r < 1) (hv : 0 ≤ v) :
    0 ≤ variance r v ∧ variance r v ≤ 6/5 * v := by
  unfold variance METRIC_VARIANCE
  constructor <;> nlinarith

theorem variance_min_bounds (r b μ : ℚ) (hr0 : 0 ≤ r) (hr1 : r < 1)
    (hb : 0 ≤ b) (hμ0 : 0 ≤ μ) (hbound : b * μ ≤ 250/3) :
    0 ≤ variance r (min 100 (b * μ)) ∧ variance r (min 100 (b * μ)) ≤ 100 := by
  have harg0 : 0 ≤ min 100 (b * μ) := le_min (by norm_num) (mul_nonneg hb hμ0)
  have harg1 : min 100 (b * μ) ≤ 250/3 := le_trans (min_le_right _ _) hbound
  obtain ⟨h1, h2⟩ := variance_bounds r (min 100 (b * μ)) hr0 hr1 harg0
  exact ⟨h1, by nlinarith⟩

theorem calculateDeviceRisk_bounds (d : Device) :
    0 ≤ calculateDeviceRisk d ∧ calculateDeviceRisk d ≤ 100 := by
  have h : ∀ x : ℚ, 0 ≤ min 100 (max 0 x) ∧ min 100 (max 0 x) ≤ 100 :=
    fun x => ⟨le_min (by norm_num) (le_max_left _ _), min_le_left _ _⟩
  exact h _

theorem refreshMult_bounds (d : Device) : 0 ≤ refreshMult d ∧ refreshMult d ≤ 13/8 := by
  unfold refreshMult
  split_ifs <;> norm_num

theorem base_cpu_mem_bounds (t : DeviceType) :
    0 ≤ (BASE_METRICS t).cpu ∧ (BASE_METRICS t).cpu ≤ 20 ∧
    0 ≤ (BASE_METRICS t).mem ∧ (BASE_METRICS t).mem ≤ 40 := by
  cases t <;> norm_num [BASE_METRICS]

theorem calculateDeviceMetrics_bounds (t : DeviceType) (af : ℚ) (tp : Bool) (now : ℕ)
    (rs : List ℚ) (h0 : 0 ≤ af) (h1 : af ≤ 3/2) (hv : ValidDraws rs) :
    0 ≤ ((calculateDeviceMetrics (BASE_METRICS t) af tp now rs).1).cpu ∧
    ((calculateDeviceMetrics (BASE_METRICS t) af tp now rs).1).cpu ≤ 100 ∧
    0 ≤ ((calculateDeviceMetrics (BASE_METRICS t) af tp now rs).1).mem ∧
    ((calculateDeviceMetrics (BASE_METRICS t) af tp now rs).1).mem ≤ 100 := by
  rw [calculateDeviceMetrics_eq _ _ _ _ _ (BASE_METRICS_msgRate_ne t)]
  dsimp only
  have hμ : 0 ≤ (1 + (af - 1) * (1/2)) * (if tp then (13 : ℚ)/10 else 1) ∧
      (1 + (af - 1) * (1/2)) * (if tp then (13 : ℚ)/10 else 1) ≤ 13/8 := by
    split_ifs <;> constructor <;> nlinarith
  obtain ⟨hb1, hb2, hb3, hb4⟩ := base_cpu_mem_bounds t
  obtain ⟨h00, h01⟩ := draw_valid rs 0 hv
  obtain ⟨h10, h11⟩ := draw_valid rs 1 hv
  have hcpu := variance_min_bounds (draw rs 0) (BASE_METRICS t).cpu _ h00 h01 hb1 hμ.1
    (by nlinarith [hμ.2, hμ.1])
  have hmem := variance_min_bounds (draw rs 1) (BASE_METRICS t).mem _ h10 h11 hb3 hμ.1
    (by nlinarith [hμ.2, hμ.1])
  exact ⟨hcpu.1, hcpu.2, hmem.1, hmem.2⟩

theorem refreshDevice_bounds (now : ℕ) (d : Device) (rs : List ℚ) (hv : ValidDraws rs) :
    0 ≤ ((refreshDevice now d rs).1).metrics.cpu ∧
    ((refreshDevice now d rs).1).metrics.cpu ≤ 100 ∧
    0 ≤ ((refreshDevice now d rs).1).metrics.mem ∧
    ((refreshDevice now d rs).1).metrics.mem ≤ 100 ∧
    ((refreshDevice now d rs).1).riskScore = d.riskScore := by
  rw [refreshDevice_eq]
  dsimp only
  obtain ⟨hm0, hm1⟩ := refreshMult_bounds d
  obtain ⟨hb1, hb2, hb3, hb4⟩ := base_cpu_mem_bounds d.dtype
  obtain ⟨h00, h01⟩ := draw_valid rs 0 hv
  obtain ⟨h10, h11⟩ := draw_valid rs 1 hv
  have hcpu := variance_min_bounds (draw rs 0) (BASE_METRICS d.dtype).cpu _ h00 h01 hb1 hm0
    (by nlinarith)
  have hmem := variance_min_bounds (draw rs 1) (BASE_METRICS d.dtype).mem _ h10 h11 hb3 hm0
    (by nlinarith)
  exact ⟨hcpu.1, hcpu.2, hmem.1, hmem.2, rfl⟩

theorem headD_mem {α : Type} (l : List α) (dflt : α) (hl : l ≠ []) : l.headD dflt ∈ l := by
  cases l with
  | nil => exact absurd rfl hl
  | cons a as => simp


theorem tickDevices_cons (a : AttackState) (df : DefenseState) (now : ℕ) (d : Device)
    (ds : List Device) (rs : List ℚ) :
    tickDevices a df now (d :: ds) rs
      = ({ (applyDefenseMitigations df (applyAttackEffects a d now rs).1 now).1
            with lastUpdated := now }
          :: (tickDevices a df now ds (applyAttackEffects a d now rs).2.2).1,
         (applyAttackEffects a d now rs).2.1
           ++ (applyDefenseMitigations df (applyAttackEffects a d now rs).1 now).2
           ++ (tickDevices a df now ds (applyAttackEffects a d now rs).2.2).2.1,
         (tickDevices a df now ds (applyAttackEffects a d now rs).2.2).2.2) := by
  simp only [tickDevices]

theorem tick_eq (s : SimulationState) (now : ℕ) (rs : List ℚ) :
    tick s now rs
      = ({ s with
            devices := (tickDevices s.attack s.defense now s.devices rs).1
            lastUpdated := now },
         (tickDevices s.attack s.defense now s.devices rs).2.1,
         (tickDevices s.attack s.defense now s.devices rs).2.2) := by
  unfold tick
  rcases tickDevices s.attack s.defense now s.devices rs with ⟨ds, es, rs'⟩
  rfl

theorem refreshDevices_cons (now : ℕ) (d : Device) (ds : List Device) (rs : List ℚ) :
    refreshDevices now (d :: ds) rs
      = ((refreshDevice now d rs).1
          :: (refreshDevices now ds (refreshDevice now d rs).2).1,
         (refreshDevices now ds (refreshDevice now d rs).2).2) := by
  simp only [refreshDevices]

theorem updateDeviceMetrics_eq (s : SimulationState) (now : ℕ) (rs : List ℚ) :
    updateDeviceMetrics s now rs
      = ({ s with
            devices := (refreshDevices now s.devices rs).1
            lastUpdated := now },
         (refreshDevices now s.devices rs).2) := by
  unfold updateDeviceMetrics
  rcases refreshDevices now s.devices rs with ⟨ds, rs'⟩
  rfl

theorem createInitialState_eq (now : ℕ) (rs : List ℚ) :
    createInitialState now rs
      = ({ running := false
           startedAt := now
           lastUpdated := now
           tickInterval := 500
           devices := (generateDevices 5 now rs).1
           attack := ⟨0, 0, 0, false⟩
           defense := ⟨false, false, false⟩ },
         (generateDevices 5 now rs).2) := by
  unfold createInitialState
  rcases generateDevices 5 now rs with ⟨ds, rs'⟩
  rfl

theorem generateDevicesAux_cons (now i n : ℕ) (rs : List ℚ) :
    generateDevicesAux now i (n + 1) rs
      = ((generateDevice i now rs).1
          :: (generateDevicesAux now (i + 1) n (generateDevice i now rs).2).1,
         (generateDevicesAux now (i + 1) n (generateDevice i now rs).2).2) := by
  simp only [generateDevicesAux]

theorem applyDefenseMitigations_keeps (df : DefenseState) (d : Device) (now : ℕ) :
    (applyDefenseMitigations df d now).1.metrics.cpu = d.metrics.cpu ∧
    (applyDefenseMitigations df d now).1.metrics.mem = d.metrics.mem ∧
    (applyDefenseMitigations df d now).1.riskScore = d.riskScore := by
  unfold applyDefenseMitigations
  dsimp only
  split_ifs <;> simp

theorem applyAttackEffects_bounds (a : AttackState) (d : Device) (now : ℕ) (rs : List ℚ)
    (ha : AttackRange a) (hv : ValidDraws rs) (hd : DeviceBounds d) :
    DeviceBounds (applyAttackEffects a d now rs).1 ∧
    ValidDraws (applyAttackEffects a d now rs).2.2 := by
  obtain ⟨⟨hs0, hs1⟩, ⟨hd0, hd1⟩, ⟨hq0, hq1⟩⟩ := ha
  obtain ⟨hr0, hr1, hm0, hm1, hc0⟩ := hd
  have hdec := applyAttackEffects_decomp a d now rs
  obtain ⟨hfa1, hmem1, hcp1, hir1, hw1, hrk1, hid1, hnm1, hdt1, hrs1, _⟩ :=
    synFloodStep_keeps a d now rs
  have hcpu1 := synFloodStep_cpu a d now rs
  set S := synFloodStep a d now rs with hS
  have hvS : ValidDraws S.2.2 := by
    rw [hrs1]
    unfold afterSynDraws
    split_ifs
    · exact ValidDraws_drop rs 3 hv
    · exact hv
  obtain ⟨hcpu2, hmem2, _, _, hrk2, _, _, _, hdr2, _⟩ := dictionaryStep_keeps a S.1 now S.2.2
  set D := dictionaryStep a S.1 now S.2.2 with hD
  have hvD : ValidDraws D.2.2 := by
    rcases hdr2 with h | h
    · rw [h]; exact hvS
    · rw [h]; exact ValidDraws_drop _ 1 hvS
  obtain ⟨_, hmem3, _, _, _, hrk3, _, _, _, hdr3, _⟩ := mqttStep_keeps a D.1 now D.2.2
  have hcpu3 := mqttStep_cpu a D.1 now D.2.2
  set M := mqttStep a D.1 now D.2.2 with hM
  have hvM : ValidDraws M.2.2 := by
    rw [hdr3]
    split_ifs
    · exact ValidDraws_drop _ 3 hvD
    · exact hvD
  obtain ⟨hmet4, _, hrk4, _, _, _, hdr4, _⟩ := tamperStep_keeps a M.1 now M.2.2
  set T := tamperStep a M.1 now M.2.2 with hT
  have hvT : ValidDraws T.2.2 := by
    rcases hdr4 with h | h
    · rw [h]; exact hvM
    · rw [h]; exact ValidDraws_drop _ 1 hvM
  have hout : (applyAttackEffects a d now rs).1 = T.1 := by rw [hdec]
  have houtd : (applyAttackEffects a d now rs).2.2 = T.2.2 := by rw [hdec]
  constructor
  · have hdraw1 := draw_valid rs 1 hv
    have hdrawD := draw_valid D.2.2 1 hvD
    refine ⟨?_, ?_, ?_, ?_, ?_⟩ <;> rw [hout]
    · rw [hrk4, hrk3, hrk2, hrk1]; exact hr0
    · rw [hrk4, hrk3, hrk2, hrk1]; exact hr1
    · rw [hmet4, hmem3, hmem2, hmem1]; exact hm0
    · rw [hmet4, hmem3, hmem2, hmem1]; exact hm1
    · rw [hmet4, hcpu3, hcpu2, hcpu1]
      have t1 : (0 : ℚ) ≤ 10 * (a.synFlood / 100) * (1 + draw rs 1) := by
        have u1 : (0 : ℚ) ≤ a.synFlood / 100 := div_nonneg hs0 (by norm_num)
        have u2 : (0 : ℚ) ≤ 1 + draw rs 1 := by linarith [hdraw1.1]
        have u3 : (0 : ℚ) ≤ 10 * (a.synFlood / 100) := by linarith
        exact mul_nonneg u3 u2
      have t2 : (0 : ℚ) ≤ 5 * (a.mqttFlood / 100) * (1 + draw D.2.2 1) := by
        have u1 : (0 : ℚ) ≤ a.mqttFlood / 100 := div_nonneg hq0 (by norm_num)
        have u2 : (0 : ℚ) ≤ 1 + draw D.2.2 1 := by linarith [hdrawD.1]
        have u3 : (0 : ℚ) ≤ 5 * (a.mqttFlood / 100) := by linarith
        exact mul_nonneg u3 u2
      split_ifs <;> linarith
  · rw [houtd]; exact hvT


theorem rs_drop3 (rs : List ℚ) : (rand (rand (rand rs).2).2).2 = rs.drop 3 := by
  simp only [rand_snd, List.drop_drop]

theorem generateDevice_snd (i now : ℕ) (rs : List ℚ) :
    (generateDevice i now rs).2 = rs.drop 8 := by
  unfold generateDevice
  dsimp only
  rw [rs_drop3, calculateDeviceMetrics_eq _ _ _ _ _ (BASE_METRICS_msgRate_ne _),
    List.drop_drop]

theorem generateDevice_bounds (i now : ℕ) (rs : List ℚ) (hv : ValidDraws rs) :
    DeviceBounds (generateDevice i now rs).1 := by
  have hv3 : ValidDraws (rs.drop 3) := ValidDraws_drop rs 3 hv
  unfold generateDevice
  dsimp only
  rw [rs_drop3]
  obtain ⟨h1, h2, h3, h4⟩ := calculateDeviceMetrics_bounds
    ((DEVICE_TYPES.drop (Int.toNat ⌊(rand rs).1 * 5⌋)).headD .cctv) 0 false now
    (rs.drop 3) le_rfl (by norm_num) hv3
  exact ⟨(calculateDeviceRisk_bounds _).1, (calculateDeviceRisk_bounds _).2, h3, h4, h1⟩

theorem tickDevices_bounds (a : AttackState) (df : DefenseState) (now : ℕ)
    (ha : AttackRange a) :
    ∀ (ds : List Device) (rs : List ℚ), ValidDraws rs → (∀ d ∈ ds, DeviceBounds d) →
      (∀ d ∈ (tickDevices a df now ds rs).1, DeviceBounds d) ∧
      ValidDraws (tickDevices a df now ds rs).2.2 := by
  intro ds
  induction ds with
  | nil =>
    intro rs hv _
    refine ⟨fun d hd => ?_, ?_⟩
    · simp [tickDevices] at hd
    · simpa [tickDevices] using hv
  | cons d0 ds ih =>
    intro rs hv hds
    obtain ⟨hb1, hvv⟩ := applyAttackEffects_bounds a d0 now rs ha hv (hds d0 (by simp))
    obtain ⟨hdef1, hdef2, hdef3⟩ :=
      applyDefenseMitigations_keeps df (applyAttackEffects a d0 now rs).1 now
    have hrest := ih (applyAttackEffects a d0 now rs).2.2 hvv (fun d hd => hds d (by simp [hd]))
    rw [tickDevices_cons]
    refine ⟨fun d hd => ?_, hrest.2⟩
    rcases List.mem_cons.mp hd with rfl | hd2
    · obtain ⟨hx0, hx1, hx2, hx3, hx4⟩ := hb1
      refine ⟨?_, ?_, ?_, ?_, ?_⟩
      · show 0 ≤ (applyDefenseMitigations df (applyAttackEffects a d0 now rs).1 now).1.riskScore
        rw [hdef3]; exact hx0
      · show (applyDefenseMitigations df (applyAttackEffects a d0 now rs).1 now).1.riskScore ≤ 100
        rw [hdef3]; exact hx1
      · show 0 ≤ (applyDefenseMitigations df (applyAttackEffects a d0 now rs).1 now).1.metrics.mem
        rw [hdef2]; exact hx2
      · show (applyDefenseMitigations df (applyAttackEffects a d0 now rs).1 now).1.metrics.mem ≤ 100
        rw [hdef2]; exact hx3
      · show 0 ≤ (applyDefenseMitigations df (applyAttackEffects a d0 now rs).1 now).1.metrics.cpu
        rw [hdef1]; exact hx4
    · exact hrest.1 d hd2

theorem refreshDevices_bounds (now : ℕ) :
    ∀ (ds : List Device) (rs : List ℚ), ValidDraws rs → (∀ d ∈ ds, DeviceBounds d) →
      ∀ d ∈ (refreshDevices now ds rs).1, DeviceBounds d := by
  intro ds
  induction ds with
  | nil => intro rs _ _ d hd; simp [refreshDevices] at hd
  | cons d0 ds ih =>
    intro rs hv hds d hd
    have hsnd : (refreshDevice now d0 rs).2 = rs.drop 5 := by rw [refreshDevice_eq]
    rw [refreshDevices_cons] at hd
    rcases List.mem_cons.mp hd with rfl | hd2
    · obtain ⟨hc0, hc1, hm0, hm1, hrk⟩ := refreshDevice_bounds now d0 rs hv
      obtain ⟨hx0, hx1, _, _, _⟩ := hds d0 (by simp)
      exact ⟨by rw [hrk]; exact hx0, by rw [hrk]; exact hx1, hm0, hm1, hc0⟩
    · rw [hsnd] at hd2
      exact ih (rs.drop 5) (ValidDraws_drop rs 5 hv) (fun x hx => hds x (by simp [hx])) d hd2

theorem updateRiskDevice_facts (now : ℕ) (d : Device) :
    (updateRiskDevice now d).1.metrics = d.metrics ∧
    (updateRiskDevice now d).1.riskScore = calculateDeviceRisk d := by
  unfold updateRiskDevice
  dsimp only
  split_ifs <;> simp

theorem generateDevicesAux_bounds (now : ℕ) :
    ∀ (n i : ℕ) (rs : List ℚ), ValidDraws rs →
      ∀ d ∈ (generateDevicesAux now i n rs).1, DeviceBounds d := by
  intro n
  induction n with
  | zero => intro i rs _ d hd; simp [generateDevicesAux] at hd
  | succ n ih =>
    intro i rs hv d hd
    rw [generateDevicesAux_cons] at hd
    rcases List.mem_cons.mp hd with rfl | hd2
    · exact generateDevice_bounds i now rs hv
    · rw [generateDevice_snd] at hd2
      exact ih (i + 1) (rs.drop 8) (ValidDraws_drop rs 8 hv) d hd2

theorem createInitialState_inv (now : ℕ) (rs : List ℚ) (hv : ValidDraws rs) :
    StateInv (createInitialState now rs).1 := by
  rw [createInitialState_eq]
  refine ⟨⟨⟨by norm_num, by norm_num⟩, ⟨by norm_num, by norm_num⟩,
    ⟨by norm_num, by norm_num⟩⟩, ?_⟩
  intro d hd
  exact generateDevicesAux_bounds now 5 0 rs hv d hd

theorem setAttackState_inv (p : AttackPatch) (s : SimulationState) (now : ℕ)
    (hp : ValidPatch p) (hs : StateInv s) : StateInv (setAttackState p s now).1 := by
  obtain ⟨⟨⟨hs0, hs1⟩, ⟨hd0, hd1⟩, ⟨hq0, hq1⟩⟩, hds⟩ := hs
  obtain ⟨hp1, hp2, hp3⟩ := hp
  have hrange : AttackRange (mergeAttack s.attack p) := by
    refine ⟨?_, ?_, ?_⟩ <;> unfold mergeAttack <;> dsimp only
    · rcases h : p.synFlood with _ | q
      · simpa using ⟨hs0, hs1⟩
      · simpa using hp1 q (by simp [h])
    · rcases h : p.dictionaryAttack with _ | q
      · simpa using ⟨hd0, hd1⟩
      · simpa using hp2 q (by simp [h])
    · rcases h : p.mqttFlood with _ | q
      · simpa using ⟨hq0, hq1⟩
      · simpa using hp3 q (by simp [h])
  unfold setAttackState
  dsimp only
  rcases hft : p.firmwareTamper with _ | b
  · exact ⟨hrange, hds⟩
  · refine ⟨hrange, fun d hd => ?_⟩
    simp only [List.mem_map] at hd
    obtain ⟨x, hx, rfl⟩ := hd
    obtain ⟨h1, h2, h3, h4, h5⟩ := hds x hx
    exact ⟨h1, h2, h3, h4, h5⟩

theorem setDefenseState_inv (p : DefensePatch) (s : SimulationState) (now : ℕ)
    (hs : StateInv s) : StateInv (setDefenseState p s now).1 := by
  obtain ⟨ha, hds⟩ := hs
  unfold setDefenseState
  dsimp only
  rcases p.signatureCheck with _ | b <;> exact ⟨ha, hds⟩

theorem tick_inv (s : SimulationState) (now : ℕ) (rs : List ℚ) (hv : ValidDraws rs)
    (hs : StateInv s) : StateInv (tick s now rs).1 := by
  obtain ⟨ha, hds⟩ := hs
  rw [tick_eq]
  exact ⟨ha, (tickDevices_bounds s.attack s.defense now ha s.devices rs hv hds).1⟩

theorem updateDeviceMetrics_inv (s : SimulationState) (now : ℕ) (rs : List ℚ)
    (hv : ValidDraws rs) (hs : StateInv s) : StateInv (updateDeviceMetrics s now rs).1 := by
  obtain ⟨ha, hds⟩ := hs
  rw [updateDeviceMetrics_eq]
  exact ⟨ha, refreshDevices_bounds now s.devices rs hv hds⟩

theorem updateRiskScores_inv (s : SimulationState) (now : ℕ)
    (hs : StateInv s) : StateInv (updateRiskScores s now).1 := by
  obtain ⟨ha, hds⟩ := hs
  unfold updateRiskScores
  dsimp only
  refine ⟨ha, fun d hd => ?_⟩
  simp only [List.map_map, List.mem_map, Function.comp] at hd
  obtain ⟨x, hx, rfl⟩ := hd
  obtain ⟨hm, hr⟩ := updateRiskDevice_facts now x
  obtain ⟨_, _, h3, h4, h5⟩ := hds x hx
  refine ⟨?_, ?_, ?_, ?_, ?_⟩
  · rw [hr]; exact (calculateDeviceRisk_bounds x).1
  · rw [hr]; exact (calculateDeviceRisk_bounds x).2
  · rw [hm]; exact h3
  · rw [hm]; exact h4
  · rw [hm]; exact h5

theorem reach_inv (e : Engine) (h : Reach e) : StateInv e.state := by
  induction h with
  | init now rs hv => exact createInitialState_inv now rs hv
  | start e now _ ih =>
    unfold Engine.start
    split_ifs
    · exact ih
    · exact ⟨ih.1, ih.2⟩
  | pause e now _ ih =>
    unfold Engine.pause
    rcases e.tickHandle with _ | h
    · exact ih
    · exact ⟨ih.1, ih.2⟩
  | reset e now rs hv _ _ =>
    unfold Engine.reset
    dsimp only
    exact createInitialState_inv now rs hv
  | setAttack e p now hp _ ih => exact setAttackState_inv p e.state now hp ih
  | setDefense e p now _ ih => exact setDefenseState_inv p e.state now ih
  | tickStep e now rs hv _ _ ih => exact tick_inv e.state now rs hv ih
  | metricStep e now rs hv _ _ ih => exact updateDeviceMetrics_inv e.state now rs hv ih
  | riskStep e now _ _ ih => exact updateRiskScores_inv e.state now ih


/-- C3 (amended): in every engine state reachable by control operations (with
transport-validated attack intensities) and firings of the scheduled periodic
callbacks, every device satisfies 0 <= riskScore <= 100, 0 <= mem <= 100 and
0 <= cpu.  The cpu <= 100 half of the claim is dropped: it is refuted by the
counterexample, since attack ticks add to cpu without any upper clamp. -/
theorem C3_reachable_bounds (e : Engine) (h : Reach e) :
    ∀ d ∈ e.state.devices, 0 ≤ d.riskScore ∧ d.riskScore ≤ 100 ∧
      0 ≤ d.metrics.mem ∧ d.metrics.mem ≤ 100 ∧ 0 ≤ d.metrics.cpu :=
  fun d hd => (reach_inv e h).2 d hd

def witnessEngine : Engine := initialEngine 0 []

def witnessDevice : Device := witnessEngine.state.devices.headD doorLockScenario

theorem witnessEngine_devices :
    witnessEngine.state.devices = (generateDevicesAux 0 0 5 []).1 := by
  show (initialEngine 0 []).state.devices = _
  unfold initialEngine
  dsimp only
  rw [createInitialState_eq]
  rfl

/-- C3 witness: the bounds hold for the first device of a freshly constructed
engine. -/
theorem C3_reachable_bounds_witness :
    0 ≤ witnessDevice.riskScore ∧ witnessDevice.riskScore ≤ 100 ∧
    0 ≤ witnessDevice.metrics.mem ∧ witnessDevice.metrics.mem ≤ 100 ∧
    0 ≤ witnessDevice.metrics.cpu :=
  C3_reachable_bounds witnessEngine (Reach.init 0 [] ValidDraws_nil) witnessDevice
    (headD_mem _ doorLockScenario
      (by rw [witnessEngine_devices, generateDevicesAux_cons]; simp))

/-- The first device generated with an exhausted draw list: all draws 0 give a
cctv at half baseline with 20% negative jitter. -/
def cexDevice (k : ℕ) : Device :=
  { id := "device-" ++ toString k
    name := "Cctv" ++ " " ++ toString k
    dtype := .cctv
    firmwareVersion := "1.0.0"
    weakPassword := false
    openPorts := [80, 443, 554, 8000]
    compromised := false
    integrityRisk := false
    metrics := ⟨6, 12, 80, 200, 4, 0, 0⟩
    lastUpdated := 0
    riskScore := 40
    lastEvent := none }

theorem generateDevice_nil (i : ℕ) :
    generateDevice i 0 [] = (cexDevice (i + 1), []) := by
  unfold generateDevice cexDevice
  dsimp only [rand]
  rw [calculateDeviceMetrics_eq _ _ _ _ _ (BASE_METRICS_msgRate_ne _)]
  norm_num [rand, draw, DEVICE_TYPES, variance, METRIC_VARIANCE, BASE_METRICS,
    calculateDeviceRisk, baseRisks, DEFAULT_PORTS, typeDisplayName,
    decide_eq_false_iff_not]

def synPatch100 : AttackPatch := ⟨some 100, none, none, none⟩

def cexEngine : Engine := (((initialEngine 0 []).start 0).1.setAttack synPatch100 0).1

def cexTick (e : Engine) : Engine := (e.tickStep 0 []).1

def cexFinal : Engine := cexTick^[10] cexEngine

/-- Per-device effect of one tick with synFlood = 100, no other attacks, no
defenses, and exhausted draws (all draws 0). -/
def cexTransform (d : Device) : Device :=
  { d with
    metrics := { d.metrics with
      netIn := d.metrics.netIn + 500
      cpu := d.metrics.cpu + 10 }
    lastUpdated := 0 }

theorem cexAttack_fst (d : Device) :
    (applyAttackEffects ⟨100, 0, 0, false⟩ d 0 []).1
      = { d with metrics := { d.metrics with
            netIn := d.metrics.netIn + 500
            cpu := d.metrics.cpu + 10 } } := by
  rw [applyAttackEffects_decomp]
  norm_num [synFloodStep_eq, dictionaryStep_eq, mqttStep_eq, tamperStep_eq, draw]

theorem cexAttack_snd (d : Device) :
    (applyAttackEffects ⟨100, 0, 0, false⟩ d 0 []).2.2 = [] := by
  rw [applyAttackEffects_decomp]
  norm_num [synFloodStep_eq, dictionaryStep_eq, mqttStep_eq, tamperStep_eq, draw]

theorem cexDefense (d : Device) :
    applyDefenseMitigations ⟨false, false, false⟩ d 0 = (d, []) := by
  unfold applyDefenseMitigations
  simp

theorem cexTickDevices :
    ∀ ds : List Device,
      (tickDevices ⟨100, 0, 0, false⟩ ⟨false, false, false⟩ 0 ds []).1
        = ds.map cexTransform := by
  intro ds
  induction ds with
  | nil => simp [tickDevices]
  | cons d ds ih =>
    rw [tickDevices_cons, cexAttack_fst, cexAttack_snd, cexDefense, ih]
    rfl

theorem tickStep_state (e : Engine) (now : ℕ) (rs : List ℚ) :
    ((e.tickStep now rs).1).state = (tick e.state now rs).1 := by
  unfold Engine.tickStep
  rw [tick_eq]

theorem tickStep_timers (e : Engine) (now : ℕ) (rs : List ℚ) :
    ((e.tickStep now rs).1).timers = e.timers := by
  unfold Engine.tickStep
  rw [tick_eq]

theorem cex_iterate_facts (n : ℕ) :
    (cexTick^[n] cexEngine).state.attack = ⟨100, 0, 0, false⟩ ∧
    (cexTick^[n] cexEngine).state.defense = ⟨false, false, false⟩ ∧
    (cexTick^[n] cexEngine).state.devices
      = [cexTransform^[n] (cexDevice 1), cexTransform^[n] (cexDevice 2),
         cexTransform^[n] (cexDevice 3), cexTransform^[n] (cexDevice 4),
         cexTransform^[n] (cexDevice 5)] := by
  induction n with
  | zero =>
    refine ⟨rfl, rfl, ?_⟩
    show cexEngine.state.devices = _
    have hsa : ∀ e : Engine, ((e.setAttack synPatch100 0).1).state.devices
        = e.state.devices := by
      intro e
      unfold Engine.setAttack setAttackState synPatch100
      dsimp only
    have hst : ∀ (e : Engine) (now : ℕ), ((e.start now).1).state.devices
        = e.state.devices := by
      intro e now
      unfold Engine.start
      split_ifs <;> rfl
    have h1 : cexEngine.state.devices = (generateDevicesAux 0 0 5 []).1 := by
      show ((((initialEngine 0 []).start 0).1).setAttack synPatch100 0).1.state.devices = _
      rw [hsa, hst]
      exact witnessEngine_devices
    rw [h1]
    rw [generateDevicesAux_cons, generateDevice_nil]
    rw [generateDevicesAux_cons, generateDevice_nil]
    rw [generateDevicesAux_cons, generateDevice_nil]
    rw [generateDevicesAux_cons, generateDevice_nil]
    rw [generateDevicesAux_cons, generateDevice_nil]
    simp [generateDevicesAux]
  | succ k ih =>
    obtain ⟨hat, hdf, hdev⟩ := ih
    rw [Function.iterate_succ_apply']
    have hstate : (cexTick (cexTick^[k] cexEngine)).state
        = (tick (cexTick^[k] cexEngine).state 0 []).1 := tickStep_state _ 0 []
    rw [hstate, tick_eq]
    refine ⟨hat, hdf, ?_⟩
    show (tickDevices _ _ 0 _ []).1 = _
    rw [hat, hdf, hdev, cexTickDevices]
    simp [Function.iterate_succ_apply']

theorem cexTransform_cpu (d : Device) :
    ∀ n : ℕ, (cexTransform^[n] d).metrics.cpu = d.metrics.cpu + 10 * n := by
  intro n
  induction n with
  | zero => simp
  | succ k ih =>
    rw [Function.iterate_succ_apply']
    show (cexTransform^[k] d).metrics.cpu + 10 = _
    rw [ih]
    push_cast
    ring

theorem cexFinal_reach : Reach cexFinal := by
  have hvp : ValidPatch synPatch100 := by
    refine ⟨fun q hq => ?_, fun q hq => ?_, fun q hq => ?_⟩ <;>
      simp [synPatch100] at hq
    subst hq
    norm_num
  have h2 : Reach cexEngine :=
    Reach.setAttack _ synPatch100 0 hvp (Reach.start _ 0 (Reach.init 0 [] ValidDraws_nil))
  have htimers : ∀ n : ℕ, (cexTick^[n] cexEngine).timers = cexEngine.timers := by
    intro n
    induction n with
    | zero => rfl
    | succ k ih =>
      rw [Function.iterate_succ_apply']
      show ((cexTick^[k] cexEngine).tickStep 0 []).1.timers = _
      rw [tickStep_timers, ih]
  have hgate : ∀ n : ℕ, (cexTick^[n] cexEngine).hasTimer .tick := by
    intro n
    unfold Engine.hasTimer
    rw [htimers n]
    decide
  show Reach (cexTick^[10] cexEngine)
  have hall : ∀ n : ℕ, Reach (cexTick^[n] cexEngine) := by
    intro n
    induction n with
    | zero => exact h2
    | succ k ih =>
      rw [Function.iterate_succ_apply']
      exact Reach.tickStep _ 0 [] ValidDraws_nil (hgate k) ih
  exact hall 10

/-- C3 counterexample: the claim's cpu <= 100 bound fails on a reachable
state.  From a freshly constructed engine, start the simulation, set synFlood
to 100 through a transport-valid update, and let ten ticks fire with exhausted
draws: the first device's cpu is 6 + 10*10 = 106 > 100, because attack ticks
add to cpu with no upper clamp. -/
theorem C3_counterexample :
    ∃ e : Engine, Reach e ∧ ∃ d ∈ e.state.devices, 100 < d.metrics.cpu := by
  refine ⟨cexFinal, cexFinal_reach, cexTransform^[10] (cexDevice 1), ?_, ?_⟩
  · rw [show cexFinal.state.devices = _ from (cex_iterate_facts 10).2.2]
    simp
  · rw [cexTransform_cpu (cexDevice 1) 10]
    norm_num [cexDevice]


end IoTSim
